import Mathlib

/-!
Verification development for the Laundrix backend (laundry-machine access
coordination: FIFO queue, grace-period handoff, incident arbitration,
reconciliation cron).

The TypeScript source is shallowly embedded as pure Lean functions over an
explicit `World` state:
  * Firestore / RTDB document stores become association lists keyed by
    document id (`kget` / `kset` / `kdel` mirror get / set / remove; a keyed
    path such as `gracePeriods/{machineId}` holds at most one value per key
    once keys are duplicate-free).
  * Timestamps (ISO strings in the source) become `Nat` milliseconds; ISO
    string comparison is chronological, so `<`/`≤` on `Nat` is faithful.
  * Status enumerations stay as the literal strings the source uses
    ("active", "pending", "confirmed", ...).
  * The command sink (RTDB `commands/...`) and the notification collaborator
    become append-only logs on the `World`.
  * JavaScript `x || null` coercion (empty string to null) is embedded by
    `strOpt`; a thrown exception that the endpoint catches as an HTTP 500 is
    embedded as an `Option`-valued helper whose `none` result makes the
    handler return the 500 response with the pre-call state.
-/

/-! ## Keyed document stores -/

/-- Read the document stored under key `k` (Firestore `doc(k).get`). -/
def kget {α : Type} : List (String × α) → String → Option α
  | [], _ => none
  | e :: s, k => if e.1 == k then some e.2 else kget s k

/-- Write the document under key `k`, overwriting any existing one
(Firestore `doc(k).set`, RTDB `ref(path).set`); keys stay unique. -/
def kset {α : Type} : List (String × α) → String → α → List (String × α)
  | [], k, v => [(k, v)]
  | e :: s, k, v => if e.1 == k then (k, v) :: s else e :: kset s k v

/-- Delete the document under key `k` (RTDB `ref(path).remove`). -/
def kdel {α : Type} : List (String × α) → String → List (String × α)
  | [], _ => []
  | e :: s, k => if e.1 == k then kdel s k else e :: kdel s k

theorem kget_kset_self {α : Type} (s : List (String × α)) (k : String)
    (v : α) : kget (kset s k v) k = some v := by
  induction s with
  | nil => simp [kget, kset]
  | cons e s ih =>
    by_cases he : e.1 = k
    · simp [kget, kset, he]
    · simp [kget, kset, he, ih]

theorem kget_kset_ne {α : Type} (s : List (String × α)) (k k' : String)
    (v : α) (h : k' ≠ k) : kget (kset s k v) k' = kget s k' := by
  induction s with
  | nil => simp [kget, kset, Ne.symm h]
  | cons e s ih =>
    by_cases he : e.1 = k
    · simp [kget, kset, he, Ne.symm h]
    · simp [kget, kset, he, ih]

theorem kget_kdel_self {α : Type} (s : List (String × α)) (k : String) :
    kget (kdel s k) k = none := by
  induction s with
  | nil => simp [kget, kdel]
  | cons e s ih =>
    by_cases he : e.1 = k
    · simpa [kdel, he] using ih
    · simp [kget, kdel, he, ih]

/-! ## Data model (src/lib/types.ts, src/lib/queue.ts interfaces) -/

/-- Embeds `QueueUser` from the queue helper: one waiting actor inside a queue
document. -/
structure QueueUser where
  position : Nat
  userId : String
  name : String
  avatar : Option String
  queueToken : String
  joinedAt : Nat
  lastActiveAt : Nat
  deriving Repr, DecidableEq

/-- Embeds `QueueDocument` from the queue helper: the per-machine queue. -/
structure QueueDocument where
  machineId : String
  status : String
  lastUpdated : Nat
  users : List QueueUser
  deriving Repr, DecidableEq

/-- Machine document (Firestore `machines` collection): occupant, cached
head pointer and display status. -/
structure Machine where
  currentUserId : Option String
  nextUserId : Option String
  status : String
  lastUpdated : Nat
  deriving Repr, DecidableEq

/-- User document (Firestore `users` collection): only the profile fields
the embedded handlers read. -/
structure UserData where
  displayName : Option String
  name : Option String
  photoURL : Option String
  avatar : Option String
  deriving Repr, DecidableEq

/-- Embeds `GracePeriod` from types.ts, plus the optional bookkeeping fields the
expiry paths merge in (`expiredAt`, `expiredBy`). -/
structure GracePeriod where
  machineId : String
  userId : String
  startedAt : Nat
  warningAt : Nat
  expiresAt : Nat
  warningSent : Bool
  status : String
  expiredAt : Option Nat
  expiredBy : Option String
  deriving Repr, DecidableEq

/-- Embeds `Incident` from types.ts, plus the `resolvedBy` field the cron merges
in. -/
structure Incident where
  machineId : String
  intruderId : String
  intruderName : String
  nextUserId : String
  nextUserName : String
  status : String
  createdAt : Nat
  expiresAt : Nat
  resolvedAt : Option Nat
  buzzerTriggered : Bool
  resolvedBy : Option String
  deriving Repr, DecidableEq

/-- One fire-and-forget hardware command written to the RTDB command sink
(`unlock`, `buzzer`). -/
structure Command where
  machineId : String
  kind : String
  sentAt : Nat
  deriving Repr, DecidableEq

/-- One notification handed to the FCM collaborator (push or stored). -/
structure Notification where
  userId : String
  ntype : String
  deriving Repr, DecidableEq

/-- The whole persisted state plus the side-effect logs. -/
structure World where
  machines : List (String × Machine)
  users : List (String × UserData)
  queues : List (String × QueueDocument)
  graces : List (String × GracePeriod)
  incidents : List (String × Incident)
  incidentSeq : Nat
  commands : List Command
  notifications : List Notification
  deriving Repr, DecidableEq

/-- JavaScript `x || null`: an empty string is falsy and collapses to
null. -/
def strOpt (o : Option String) : Option String :=
  match o with
  | none => none
  | some s => if s == "" then none else some s

/-- Append a command to the RTDB command sink log. -/
def pushCommand (w : World) (machineId kind : String) (now : Nat) : World :=
  { w with commands := w.commands ++ [⟨machineId, kind, now⟩] }

/-- Record one notification call. -/
def pushNote (w : World) (userId ntype : String) : World :=
  { w with notifications := w.notifications ++ [⟨userId, ntype⟩] }

/-- Generic endpoint response: HTTP status plus the JSON fields the
embedded endpoints actually set. -/
structure ApiResp where
  status : Nat
  success : Bool
  error : Option String
  code : Option String
  message : Option String
  result : Option String
  dataStatus : Option String
  deriving Repr, DecidableEq

/-- Success response skeleton. -/
def okResp (status : Nat) : ApiResp :=
  ⟨status, true, none, none, none, none, none⟩

/-- Error response skeleton (`{ success: false, error }`). -/
def errResp (status : Nat) (e : String) : ApiResp :=
  ⟨status, false, some e, none, none, none, none⟩

/-! ## Queue helper (src/lib/queue.ts, given as src/unnamed/part_004) -/

/-- Stable ascending insertion by `position`, embedding the JS
`[...users].sort((a, b) => a.position - b.position)`. -/
def insertByPos (u : QueueUser) : List QueueUser → List QueueUser
  | [] => [u]
  | v :: vs => if u.position < v.position then u :: v :: vs
               else v :: insertByPos u vs

/-- Sort a user list by `position`. -/
def sortByPosition : List QueueUser → List QueueUser
  | [] => []
  | u :: us => insertByPos u (sortByPosition us)

/-- Embeds `userExists`: the `users` collection membership test. -/
def userExists (users : List (String × UserData)) (userId : String) : Bool :=
  (kget users userId).isSome

/-- Embeds `getNextUser`: the entry with the smallest `position` in the machine's
queue document, or none when the document is absent or empty. -/
def getNextUser (queues : List (String × QueueDocument))
    (machineId : String) : Option QueueUser :=
  match kget queues machineId with
  | none => none
  | some qd =>
    if qd.users.isEmpty then none
    else (sortByPosition qd.users).head?

/-- Embeds `getUserPosition`: the user's `position`, with the JS `|| null`
collapsing a zero position to null. -/
def getUserPosition (queues : List (String × QueueDocument))
    (machineId userId : String) : Option Nat :=
  match kget queues machineId with
  | none => none
  | some qd =>
    match qd.users.find? (fun u => u.userId == userId) with
    | none => none
    | some u => if u.position == 0 then none else some u.position

/-- Embeds `isUserInQueue`. -/
def isUserInQueue (queues : List (String × QueueDocument))
    (machineId userId : String) : Bool :=
  (getUserPosition queues machineId userId).isSome

/-- The `.map((user, index) => ({ ...user, position: index + 1 }))`
re-numbering used after every removal, generalized over the first index. -/
def reindexFrom (n : Nat) : List QueueUser → List QueueUser
  | [] => []
  | u :: us => { u with position := n } :: reindexFrom (n + 1) us

/-- Embeds `removeUserFromQueue`: drop the entry and compact positions to
`1..N-1`; returns whether an entry was removed. -/
def removeUserFromQueue (queues : List (String × QueueDocument))
    (machineId userId : String) (now : Nat) :
    List (String × QueueDocument) × Bool :=
  match kget queues machineId with
  | none => (queues, false)
  | some qd =>
    if qd.users.all (fun u => u.userId != userId) then (queues, false)
    else
      let updatedUsers :=
        reindexFrom 1 (qd.users.filter (fun u => u.userId != userId))
      (kset queues machineId
        { qd with users := updatedUsers, lastUpdated := now }, true)

/-- Embeds `addUserToQueue`: validate that the user document exists, return the
existing entry when the actor is already queued, otherwise append a new
entry at `position = users.length + 1` and write the queue document back
(the `{ merge: true }` set rewrites all four fields). The random suffix of
`queueToken` is abstracted to the timestamp. -/
def addUserToQueue (w : World) (machineId userId name : String)
    (avatar : Option String) (now : Nat) : World × Option QueueUser :=
  if !(userExists w.users userId) then (w, none)
  else
    let users := match kget w.queues machineId with
      | none => []
      | some qd => qd.users
    match users.find? (fun u => u.userId == userId) with
    | some u => (w, some u)
    | none =>
      let newUser : QueueUser :=
        { position := users.length + 1, userId := userId, name := name
          avatar := avatar, queueToken := "q_" ++ toString now
          joinedAt := now, lastActiveAt := now }
      let qd : QueueDocument :=
        { machineId := machineId, status := "Active", lastUpdated := now
          users := users ++ [newUser] }
      ({ w with queues := kset w.queues machineId qd }, some newUser)

/-- Embeds `updateNextUserId`: recompute the machine's cached `nextUserId` from
the queue head (`nextUser?.userId || null`); `machinesRef.update` on an
absent machine document throws and is caught, leaving the store
unchanged. -/
def updateNextUserId (w : World) (machineId : String) (now : Nat) : World :=
  let nextUserId :=
    strOpt ((getNextUser w.queues machineId).map (fun u => u.userId))
  match kget w.machines machineId with
  | none => w
  | some m =>
    let m1 := { m with nextUserId := nextUserId, lastUpdated := now }
    { w with machines := kset w.machines machineId m1 }

/-- Embeds `setCurrentUser`: write the occupant and display status, then
recompute `nextUserId`.  A JS-truthy check picks the status, so an empty
string behaves like null. -/
def setCurrentUser (w : World) (machineId : String) (userId : Option String)
    (now : Nat) : World :=
  match kget w.machines machineId with
  | none => w
  | some m =>
    let status := match userId with
      | some uid => if uid == "" then "Available" else "In Use"
      | none => "Available"
    let m1 := { m with
      currentUserId := userId
      status := status
      lastUpdated := now }
    let w1 := { w with machines := kset w.machines machineId m1 }
    updateNextUserId w1 machineId now

/-- Embeds `getMachine`. -/
def getMachine (w : World) (machineId : String) : Option Machine :=
  kget w.machines machineId

/-- Embeds `getUser`. -/
def getUser (w : World) (userId : String) : Option UserData :=
  kget w.users userId

/-- World-level wrapper of `removeUserFromQueue`. -/
def removeUserFromQueueW (w : World) (machineId userId : String)
    (now : Nat) : World × Bool :=
  let r := removeUserFromQueue w.queues machineId userId now
  ({ w with queues := r.1 }, r.2)

/-- The userIds waiting in a machine's queue, in stored order. -/
def queueUserIds (queues : List (String × QueueDocument))
    (machineId : String) : List String :=
  match kget queues machineId with
  | none => []
  | some qd => qd.users.map (fun u => u.userId)

/-! ## Grace periods (src/unnamed/part_001 release endpoint,
src/unnamed/part_000 grace-timeout endpoint) -/

/-- A fresh active grace record as both starters build it:
`warningAt = now + 2min`, `expiresAt = now + 5min`. -/
def freshGrace (machineId userId : String) (now : Nat) : GracePeriod :=
  { machineId := machineId, userId := userId, startedAt := now
    warningAt := now + 2 * 60 * 1000, expiresAt := now + 5 * 60 * 1000
    warningSent := false, status := "active"
    expiredAt := none, expiredBy := none }

/-- Embeds `startGracePeriod` (release endpoint): overwrite the RTDB slot
`gracePeriods/{machineId}` with a fresh active record. -/
def startGracePeriod (w : World) (machineId userId : String) (now : Nat) :
    World :=
  { w with graces := kset w.graces machineId (freshGrace machineId userId now) }

/-- Embeds `startNewGracePeriod` (grace-timeout endpoint): identical overwrite of
the same per-machine slot. -/
def startNewGracePeriod (w : World) (machineId userId : String)
    (now : Nat) : World :=
  { w with graces := kset w.graces machineId (freshGrace machineId userId now) }

/-- The merge `update` setting `warningSent := true`. -/
def updateWarningSent (gp : GracePeriod) : GracePeriod :=
  { gp with warningSent := true }

/-- The merge `update` with fields `status := expired`, `expiredAt`. -/
def markExpired (gp : GracePeriod) (now : Nat) : GracePeriod :=
  { gp with status := "expired", expiredAt := some now }

/-- Embeds `handleWarning`: idempotent 2-minute warning — if `warningSent` is
already set, do nothing; otherwise flip it and notify. -/
def handleWarning (w : World) (machineId userId : String)
    (gp : GracePeriod) : World :=
  if gp.warningSent then w
  else
    let gs := kset w.graces machineId (updateWarningSent gp)
    let w1 := { w with graces := gs }
    pushNote (pushNote w1 userId "grace_warning_push") userId "grace_warning"

/-- Embeds `handleExpired`: mark the record expired, evict the grantee from the
queue, notify, recompute the machine head, and either start a fresh grace
period for the new head or clear the slot when the queue drained. -/
def handleExpired (w : World) (machineId userId : String)
    (gp : GracePeriod) (now : Nat) :
    World × Option String × Option String :=
  let gs1 := kset w.graces machineId (markExpired gp now)
  let w1 := { w with graces := gs1 }
  let w2 := (removeUserFromQueueW w1 machineId userId now).1
  let w3 := pushNote (pushNote w2 userId "removed_from_queue_push")
      userId "removed_from_queue"
  let w4 := updateNextUserId w3 machineId now
  match getNextUser w4.queues machineId with
  | some nextUser =>
    let w5 := startNewGracePeriod w4 machineId nextUser.userId now
    let w6 := pushNote (pushNote w5 nextUser.userId "your_turn_push")
        nextUser.userId "your_turn"
    (w6, some nextUser.userId, some nextUser.name)
  | none =>
    ({ w4 with graces := kdel w4.graces machineId }, none, none)

/-- The grace-timeout endpoint (`POST /api/grace-timeout`): validates the
body, loads the per-machine grace record, verifies grantee and `active`
status, then dispatches on the `timeoutType` string. -/
def graceTimeoutHandler (w : World) (machineId userId timeoutType : String)
    (now : Nat) : ApiResp × World :=
  if machineId == "" || userId == "" || timeoutType == "" then
    (errResp 400 "Missing machineId, userId, or timeoutType", w)
  else
    match kget w.graces machineId with
    | none => (errResp 404 "No active grace period for this machine", w)
    | some gp =>
      if gp.userId != userId then
        (errResp 403 "Grace period is for a different user", w)
      else if gp.status != "active" then
        (errResp 400 ("Grace period already " ++ gp.status), w)
      else if timeoutType == "warning" then
        let w1 := handleWarning w machineId userId gp
        ({ okResp 200 with
            message := some "Warning sent. 3 minutes remaining." }, w1)
      else if timeoutType == "expired" then
        let w1 := (handleExpired w machineId userId gp now).1
        ({ okResp 200 with message := some "User removed from queue." }, w1)
      else
        (errResp 400 "Invalid timeoutType. Use: warning or expired", w)

/-! ## Scan endpoint (src/api/scan.ts) -/

/-- Embeds `unlockDoor`: unlock command to the machine's RTDB command sink. -/
def unlockDoor (w : World) (machineId : String) (now : Nat) : World :=
  pushCommand w machineId "unlock" now

/-- Embeds `createIncident`: build and store the pending incident document.  The
source reads `nextUserData.name` without a null check; when no queue head
exists (`nextUser` is null) that line throws a TypeError before
`incidentsRef.add` runs, embedded here as the `none` result with no store
write.  Document ids from `incidentsRef.add` come from `incidentSeq`. -/
def createIncident (w : World) (machineId intruderId : String)
    (intruderData : UserData) (nextUser : Option QueueUser) (now : Nat) :
    World × Option String :=
  match nextUser with
  | none => (w, none)
  | some nextUserData =>
    let inc : Incident :=
      { machineId := machineId, intruderId := intruderId
        intruderName :=
          ((strOpt intruderData.displayName).orElse
            (fun _ => strOpt intruderData.name)).getD "Unknown"
        nextUserId := nextUserData.userId
        nextUserName := (strOpt (some nextUserData.name)).getD "Unknown"
        status := "pending", createdAt := now
        expiresAt := now + 60 * 1000
        resolvedAt := none, buzzerTriggered := false, resolvedBy := none }
    let incidentId := "inc" ++ toString w.incidentSeq
    ({ w with incidents := kset w.incidents incidentId inc
              incidentSeq := w.incidentSeq + 1 }, some incidentId)

/-- The scan endpoint (`POST /api/scan`): classify the scan against the
machine's occupant and queue head, in source order — re-entry, handoff
claim, empty-queue claim, unauthorized incident. -/
def scanHandler (w : World) (machineId userId : String) (now : Nat) :
    ApiResp × World :=
  if machineId == "" || userId == "" then
    (errResp 400 "Missing machineId or userId", w)
  else
    match getMachine w machineId with
    | none => ({ errResp 404 "Machine not found" with
                 result := some "machine_not_found" }, w)
    | some machine =>
      match getUser w userId with
      | none => ({ errResp 404 "User not found" with
                   result := some "user_not_found" }, w)
      | some user =>
        let currentUserId := strOpt machine.currentUserId
        let nextUser := getNextUser w.queues machineId
        let nextUserId := strOpt (nextUser.map (fun u => u.userId))
        if currentUserId == some userId then
          -- CASE 1: re-entry during the occupant's own session
          ({ okResp 200 with
              result := some "already_current"
              message := some "Door unlocked. Welcome back!" },
           unlockDoor w machineId now)
        else if nextUserId == some userId then
          -- CASE 2: the queue head claims their turn
          let w1 := (removeUserFromQueueW w machineId userId now).1
          let w2 := setCurrentUser w1 machineId (some userId) now
          let w3 := unlockDoor w2 machineId now
          let w4 := pushNote w3 userId "session_started"
          ({ okResp 200 with
              result := some "authorized"
              message := some "Your turn! Door unlocked." }, w4)
        else if currentUserId == none && nextUserId == none then
          -- CASE 3: machine free and queue empty, direct claim
          let w1 := setCurrentUser w machineId (some userId) now
          let w2 := unlockDoor w1 machineId now
          let w3 := pushNote w2 userId "session_started"
          ({ okResp 200 with
              result := some "queue_empty_claim"
              message := some "Machine is yours! Door unlocked." }, w3)
        else
          -- CASE 4: unauthorized scan
          match createIncident w machineId userId user nextUser now with
          | (_, none) => (errResp 500 "Internal server error", w)
          | (w1, some _) =>
            let w2 := pushNote w1 userId "unauthorized_warning_push"
            let w3 := match nextUserId with
              | some nid => pushNote w2 nid "unauthorized_alert_push"
              | none => w2
            let w4 := pushNote w3 userId "unauthorized_warning"
            ({ errResp 403 "" with
               error := none
               result := some "unauthorized"
               message :=
                 some "Not your turn. The rightful user has been notified." },
             w4)

/-! ## Join-queue endpoint (src/api/join-queue.ts) -/

/-- The join endpoint (`POST /api/join-queue`): rejects an actor already
queued (`ALREADY_IN_QUEUE`) or currently occupying the machine
(`ALREADY_CURRENT_USER`), otherwise appends through `addUserToQueue` and
recomputes the machine head.  The `idempotencyKey` forwarded by the
endpoint is dropped by the four-parameter library function. -/
def joinQueueHandler (w : World) (machineId userId userName : String)
    (now : Nat) : ApiResp × World :=
  if machineId == "" || userId == "" then
    (errResp 400 "Missing machineId or userId", w)
  else
    match getMachine w machineId, getUser w userId with
    | none, _ => (errResp 404 "Machine not found", w)
    | some _, none => (errResp 404 "User not found", w)
    | some machine, some user =>
      if isUserInQueue w.queues machineId userId then
        ({ errResp 400 "Already in queue for this machine" with
           code := some "ALREADY_IN_QUEUE" }, w)
      else if machine.currentUserId == some userId then
        ({ errResp 400 "You are currently using this machine" with
           code := some "ALREADY_CURRENT_USER" }, w)
      else
        let nm := if userName != "" then userName else
          ((strOpt user.displayName).orElse
            (fun _ => strOpt user.name)).getD "Unknown"
        let av := (strOpt user.photoURL).orElse (fun _ => strOpt user.avatar)
        match addUserToQueue w machineId userId nm av now with
        | (w1, none) => (errResp 500 "Failed to add to queue", w1)
        | (w1, some queueUser) =>
          let w2 := updateNextUserId w1 machineId now
          let w3 := pushNote w2 userId "queue_joined"
          ({ okResp 200 with
             message := some ("Joined queue at position " ++
               toString queueUser.position) }, w3)

/-! ## Incident-action endpoint (src/api/incident-action.ts) -/

/-- Embeds `triggerBuzzer`: buzzer command to the machine's RTDB command sink. -/
def triggerBuzzer (w : World) (machineId : String) (now : Nat) : World :=
  pushCommand w machineId "buzzer" now

/-- Embeds `handleConfirmNotMe`: only the rightful next user may confirm (a
mismatch throws, surfacing as the catch-all 500); on success the incident
is marked confirmed, the buzzer fires and both parties are notified. -/
def handleConfirmNotMe (w : World) (incidentId : String) (inc : Incident)
    (userId : String) (now : Nat) : Option World :=
  if userId != inc.nextUserId then none
  else
    let inc1 := { inc with
      status := "confirmed"
      resolvedAt := some now
      buzzerTriggered := true }
    let w1 := { w with incidents := kset w.incidents incidentId inc1 }
    let w2 := triggerBuzzer w1 inc.machineId now
    let w3 := pushNote w2 inc.intruderId "buzzer_triggered"
    some (pushNote w3 inc.nextUserId "buzzer_triggered")

/-- Embeds `handleDismiss`: grantee-only false-alarm path; no buzzer. -/
def handleDismiss (w : World) (incidentId : String) (inc : Incident)
    (userId : String) (now : Nat) : Option World :=
  if userId != inc.nextUserId then none
  else
    let inc1 := { inc with
      status := "dismissed"
      resolvedAt := some now
      buzzerTriggered := false }
    some { w with incidents := kset w.incidents incidentId inc1 }

/-- Embeds `handleTimeout`: reject a manual timeout arriving more than 5 seconds
before `expiresAt` (the throw surfaces as the catch-all 500); otherwise
mark timeout, fire the buzzer and notify both parties. -/
def handleTimeout (w : World) (incidentId : String) (inc : Incident)
    (now : Nat) : Option World :=
  if now < inc.expiresAt && inc.expiresAt - now > 5000 then none
  else
    let inc1 := { inc with
      status := "timeout"
      resolvedAt := some now
      buzzerTriggered := true }
    let w1 := { w with incidents := kset w.incidents incidentId inc1 }
    let w2 := triggerBuzzer w1 inc.machineId now
    let w3 := pushNote w2 inc.intruderId "buzzer_triggered"
    some (pushNote w3 inc.nextUserId "buzzer_triggered")

/-- The incident-action endpoint (`POST /api/incident-action`): validate,
load the incident, reject any action on an incident that is no longer
pending (reporting the current status), then dispatch on the action
string. -/
def incidentActionHandler (w : World) (incidentId userId action : String)
    (now : Nat) : ApiResp × World :=
  if incidentId == "" || userId == "" || action == "" then
    (errResp 400 "Missing incidentId, userId, or action", w)
  else
    match kget w.incidents incidentId with
    | none => (errResp 404 "Incident not found", w)
    | some inc =>
      if inc.status != "pending" then
        ({ errResp 400 ("Incident already " ++ inc.status) with
           dataStatus := some inc.status }, w)
      else if action == "confirm_not_me" then
        match handleConfirmNotMe w incidentId inc userId now with
        | none => (errResp 500 "Internal server error", w)
        | some w1 =>
          ({ okResp 200 with
             message := some "Confirmed. Buzzer activated."
             dataStatus := some "confirmed" }, w1)
      else if action == "dismiss" then
        match handleDismiss w incidentId inc userId now with
        | none => (errResp 500 "Internal server error", w)
        | some w1 =>
          ({ okResp 200 with
             message := some "Incident dismissed."
             dataStatus := some "dismissed" }, w1)
      else if action == "timeout" then
        match handleTimeout w incidentId inc now with
        | none => (errResp 500 "Internal server error", w)
        | some w1 =>
          ({ okResp 200 with
             message := some "Timeout. Buzzer activated."
             dataStatus := some "timeout" }, w1)
      else
        (errResp 400 "Invalid action. Use: confirm_not_me, dismiss, or timeout",
         w)

/-! ## Reconciliation cron (src/api/cron.ts) -/

/-- Loop body of cron task 1 for one snapshot entry of
`gracePeriods`: skip records that are not active or not yet past
`expiresAt`; otherwise mark expired (attributed to the cron), evict the
grantee, recompute the head and either promote the new head into a fresh
grace period or clear the slot. -/
def cronGraceStep (w : World) (machineId : String) (gp : GracePeriod)
    (now : Nat) : World :=
  if gp.status != "active" then w
  else if gp.expiresAt > now then w
  else
    let gp1 := { gp with
      status := "expired"
      expiredAt := some now
      expiredBy := some "cron" }
    let w1 := { w with graces := kset w.graces machineId gp1 }
    let w2 := (removeUserFromQueueW w1 machineId gp.userId now).1
    let w3 := pushNote (pushNote w2 gp.userId "removed_from_queue_push")
        gp.userId "removed_from_queue"
    let w4 := updateNextUserId w3 machineId now
    match getNextUser w4.queues machineId with
    | some nextUser =>
      let gs5 := kset w4.graces machineId
        (freshGrace machineId nextUser.userId now)
      let w5 := { w4 with graces := gs5 }
      pushNote (pushNote w5 nextUser.userId "your_turn_push")
        nextUser.userId "your_turn"
    | none =>
      { w4 with graces := kdel w4.graces machineId }

/-- The cron merge `update` with fields `status := timeout`,
`resolvedAt`, `buzzerTriggered`, `resolvedBy := cron`. -/
def markCronTimeout (inc : Incident) (now : Nat) : Incident :=
  { inc with
    status := "timeout"
    resolvedAt := some now
    buzzerTriggered := true
    resolvedBy := some "cron" }

/-- Loop body of cron task 2 for one incident selected by the
`status == pending && expiresAt <= now` query: mark it timed out
(attributed to the cron), fire the buzzer and notify both parties. -/
def cronIncidentStep (w : World) (incidentId : String) (inc : Incident)
    (now : Nat) : World :=
  let store1 := kset w.incidents incidentId (markCronTimeout inc now)
  let w1 := { w with incidents := store1 }
  let w2 := pushCommand w1 inc.machineId "buzzer" now
  pushNote (pushNote w2 inc.intruderId "buzzer_triggered")
    inc.nextUserId "buzzer_triggered"

/-- The cron endpoint (`GET /api/cron`): sweep a snapshot of all grace
records, then all incidents matching the pending-and-overdue query. -/
def cronHandler (w : World) (now : Nat) : World :=
  let w1 := w.graces.foldl (fun acc e => cronGraceStep acc e.1 e.2 now) w
  let pend := w1.incidents.filter
    (fun e => e.2.status == "pending" && e.2.expiresAt ≤ now)
  pend.foldl (fun acc e => cronIncidentStep acc e.1 e.2 now) w1

/-! ## Projection lemmas for the state transformers -/

@[simp] theorem pushNote_machines (w : World) (u t : String) :
    (pushNote w u t).machines = w.machines := rfl
@[simp] theorem pushNote_users (w : World) (u t : String) :
    (pushNote w u t).users = w.users := rfl
@[simp] theorem pushNote_queues (w : World) (u t : String) :
    (pushNote w u t).queues = w.queues := rfl
@[simp] theorem pushNote_graces (w : World) (u t : String) :
    (pushNote w u t).graces = w.graces := rfl
@[simp] theorem pushNote_incidents (w : World) (u t : String) :
    (pushNote w u t).incidents = w.incidents := rfl
@[simp] theorem pushNote_incidentSeq (w : World) (u t : String) :
    (pushNote w u t).incidentSeq = w.incidentSeq := rfl
@[simp] theorem pushNote_commands (w : World) (u t : String) :
    (pushNote w u t).commands = w.commands := rfl

@[simp] theorem pushCommand_machines (w : World) (m k : String) (n : Nat) :
    (pushCommand w m k n).machines = w.machines := rfl
@[simp] theorem pushCommand_users (w : World) (m k : String) (n : Nat) :
    (pushCommand w m k n).users = w.users := rfl
@[simp] theorem pushCommand_queues (w : World) (m k : String) (n : Nat) :
    (pushCommand w m k n).queues = w.queues := rfl
@[simp] theorem pushCommand_graces (w : World) (m k : String) (n : Nat) :
    (pushCommand w m k n).graces = w.graces := rfl
@[simp] theorem pushCommand_incidents (w : World) (m k : String) (n : Nat) :
    (pushCommand w m k n).incidents = w.incidents := rfl
@[simp] theorem pushCommand_incidentSeq (w : World) (m k : String) (n : Nat) :
    (pushCommand w m k n).incidentSeq = w.incidentSeq := rfl
@[simp] theorem pushCommand_notifications (w : World) (m k : String)
    (n : Nat) :
    (pushCommand w m k n).notifications = w.notifications := rfl
@[simp] theorem pushCommand_commands (w : World) (m k : String) (n : Nat) :
    (pushCommand w m k n).commands = w.commands ++ [⟨m, k, n⟩] := rfl

@[simp] theorem updateNextUserId_users (w : World) (m : String) (n : Nat) :
    (updateNextUserId w m n).users = w.users := by
  unfold updateNextUserId
  cases kget w.machines m <;> rfl
@[simp] theorem updateNextUserId_queues (w : World) (m : String) (n : Nat) :
    (updateNextUserId w m n).queues = w.queues := by
  unfold updateNextUserId
  cases kget w.machines m <;> rfl
@[simp] theorem updateNextUserId_graces (w : World) (m : String) (n : Nat) :
    (updateNextUserId w m n).graces = w.graces := by
  unfold updateNextUserId
  cases kget w.machines m <;> rfl
@[simp] theorem updateNextUserId_incidents (w : World) (m : String)
    (n : Nat) : (updateNextUserId w m n).incidents = w.incidents := by
  unfold updateNextUserId
  cases kget w.machines m <;> rfl
@[simp] theorem updateNextUserId_incidentSeq (w : World) (m : String)
    (n : Nat) : (updateNextUserId w m n).incidentSeq = w.incidentSeq := by
  unfold updateNextUserId
  cases kget w.machines m <;> rfl
@[simp] theorem updateNextUserId_commands (w : World) (m : String)
    (n : Nat) : (updateNextUserId w m n).commands = w.commands := by
  unfold updateNextUserId
  cases kget w.machines m <;> rfl
@[simp] theorem updateNextUserId_notifications (w : World) (m : String)
    (n : Nat) :
    (updateNextUserId w m n).notifications = w.notifications := by
  unfold updateNextUserId
  cases kget w.machines m <;> rfl

@[simp] theorem removeUserFromQueueW_machines (w : World) (m u : String)
    (n : Nat) : (removeUserFromQueueW w m u n).1.machines = w.machines := rfl
@[simp] theorem removeUserFromQueueW_users (w : World) (m u : String)
    (n : Nat) : (removeUserFromQueueW w m u n).1.users = w.users := rfl
@[simp] theorem removeUserFromQueueW_graces (w : World) (m u : String)
    (n : Nat) : (removeUserFromQueueW w m u n).1.graces = w.graces := rfl
@[simp] theorem removeUserFromQueueW_incidents (w : World) (m u : String)
    (n : Nat) :
    (removeUserFromQueueW w m u n).1.incidents = w.incidents := rfl
@[simp] theorem removeUserFromQueueW_incidentSeq (w : World) (m u : String)
    (n : Nat) :
    (removeUserFromQueueW w m u n).1.incidentSeq = w.incidentSeq := rfl
@[simp] theorem removeUserFromQueueW_commands (w : World) (m u : String)
    (n : Nat) : (removeUserFromQueueW w m u n).1.commands = w.commands := rfl
@[simp] theorem removeUserFromQueueW_notifications (w : World)
    (m u : String) (n : Nat) :
    (removeUserFromQueueW w m u n).1.notifications = w.notifications := rfl
@[simp] theorem removeUserFromQueueW_queues (w : World) (m u : String)
    (n : Nat) :
    (removeUserFromQueueW w m u n).1.queues =
      (removeUserFromQueue w.queues m u n).1 := rfl

@[simp] theorem setCurrentUser_users (w : World) (m : String)
    (u : Option String) (n : Nat) :
    (setCurrentUser w m u n).users = w.users := by
  unfold setCurrentUser
  cases kget w.machines m <;> simp
@[simp] theorem setCurrentUser_queues (w : World) (m : String)
    (u : Option String) (n : Nat) :
    (setCurrentUser w m u n).queues = w.queues := by
  unfold setCurrentUser
  cases kget w.machines m <;> simp
@[simp] theorem setCurrentUser_graces (w : World) (m : String)
    (u : Option String) (n : Nat) :
    (setCurrentUser w m u n).graces = w.graces := by
  unfold setCurrentUser
  cases kget w.machines m <;> simp
@[simp] theorem setCurrentUser_incidents (w : World) (m : String)
    (u : Option String) (n : Nat) :
    (setCurrentUser w m u n).incidents = w.incidents := by
  unfold setCurrentUser
  cases kget w.machines m <;> simp
@[simp] theorem setCurrentUser_incidentSeq (w : World) (m : String)
    (u : Option String) (n : Nat) :
    (setCurrentUser w m u n).incidentSeq = w.incidentSeq := by
  unfold setCurrentUser
  cases kget w.machines m <;> simp
@[simp] theorem setCurrentUser_commands (w : World) (m : String)
    (u : Option String) (n : Nat) :
    (setCurrentUser w m u n).commands = w.commands := by
  unfold setCurrentUser
  cases kget w.machines m <;> simp
@[simp] theorem setCurrentUser_notifications (w : World) (m : String)
    (u : Option String) (n : Nat) :
    (setCurrentUser w m u n).notifications = w.notifications := by
  unfold setCurrentUser
  cases kget w.machines m <;> simp

/-! ## Queue well-formedness (claim C2 machinery) -/

/-- A queue user list is well formed when the stored positions are exactly
`1..N` in order and no userId repeats. -/
def usersWf (l : List QueueUser) : Prop :=
  l.map (fun u => u.position) = List.range' 1 l.length ∧
  (l.map (fun u => u.userId)).Nodup

/-- Well-formedness of the queue document of one machine (an absent
document is trivially well formed). -/
def queueWf (qs : List (String × QueueDocument)) (m : String) : Prop :=
  match kget qs m with
  | none => True
  | some qd => usersWf qd.users

/-- One join or leave request against a fixed machine's queue, carrying
the caller-supplied profile and timestamp. -/
inductive QOp where
  | join (userId name : String) (avatar : Option String) (now : Nat)
  | leave (userId : String) (now : Nat)

/-- Run one queue-library mutation (the functions the endpoints call). -/
def applyQOp (machineId : String) (w : World) : QOp → World
  | QOp.join userId name avatar now =>
    (addUserToQueue w machineId userId name avatar now).1
  | QOp.leave userId now =>
    (removeUserFromQueueW w machineId userId now).1

@[simp] theorem reindexFrom_length (l : List QueueUser) :
    ∀ n, (reindexFrom n l).length = l.length := by
  induction l with
  | nil => intro n; simp [reindexFrom]
  | cons u us ih =>
    intro n
    simp [reindexFrom, ih]

theorem reindexFrom_map_position (l : List QueueUser) :
    ∀ n, (reindexFrom n l).map (fun u => u.position) =
      List.range' n l.length := by
  induction l with
  | nil => intro n; simp [reindexFrom]
  | cons u us ih =>
    intro n
    simp [reindexFrom, List.range', ih]

theorem reindexFrom_map_userId (l : List QueueUser) :
    ∀ n, (reindexFrom n l).map (fun u => u.userId) =
      l.map (fun u => u.userId) := by
  induction l with
  | nil => intro n; simp [reindexFrom]
  | cons u us ih =>
    intro n
    simp [reindexFrom, ih]

theorem filter_map_userId (l : List QueueUser) (x : String) :
    (l.filter (fun u => u.userId != x)).map (fun u => u.userId) =
      (l.map (fun u => u.userId)).filter (fun y => y != x) := by
  induction l with
  | nil => simp
  | cons u us ih =>
    by_cases hu : u.userId = x
    · simp [hu, ih]
    · simp [hu, ih]

theorem usersWf_nil : usersWf [] := by
  constructor <;> simp

theorem usersWf_append (l : List QueueUser) (x : QueueUser)
    (h : usersWf l) (hnotin : x.userId ∉ l.map (fun u => u.userId))
    (hpos : x.position = l.length + 1) : usersWf (l ++ [x]) := by
  obtain ⟨hp, hn⟩ := h
  constructor
  · rw [List.map_append, hp, List.length_append]
    simp [hpos, List.range'_concat, Nat.add_comm]
  · rw [List.map_append]
    simp only [List.map_cons, List.map_nil]
    rw [List.nodup_append]
    refine ⟨hn, List.nodup_singleton _, ?_⟩
    intro y hy hymem
    simp only [List.mem_singleton] at hymem
    exact hnotin (hymem ▸ hy)

theorem usersWf_remove (l : List QueueUser) (uid : String)
    (h : usersWf l) :
    usersWf (reindexFrom 1 (l.filter (fun u => u.userId != uid))) := by
  obtain ⟨_, hn⟩ := h
  constructor
  · rw [reindexFrom_map_position, reindexFrom_length]
  · rw [reindexFrom_map_userId, filter_map_userId]
    exact hn.filter _

theorem queueWf_addUserToQueue (w : World) (m uid nm : String)
    (av : Option String) (now : Nat) (h : queueWf w.queues m) :
    queueWf ((addUserToQueue w m uid nm av now).1).queues m := by
  unfold addUserToQueue
  by_cases hex : userExists w.users uid
  · simp only [hex, Bool.not_true, Bool.false_eq_true, if_false]
    cases hq : kget w.queues m with
    | none =>
      simp only [hq, List.find?_nil]
      unfold queueWf
      rw [kget_kset_self]
      exact usersWf_append _ _ usersWf_nil (by simp) (by simp)
    | some qd =>
      simp only [hq]
      cases hf : qd.users.find? (fun u => u.userId == uid) with
      | some entry => simpa [queueWf, hq, hf] using h
      | none =>
        simp only [hf]
        unfold queueWf
        rw [kget_kset_self]
        have hwf : usersWf qd.users := by simpa [queueWf, hq] using h
        refine usersWf_append _ _ hwf ?_ rfl
        intro hmem
        obtain ⟨entry, hu, huid⟩ := List.mem_map.mp hmem
        have hne := List.find?_eq_none.mp hf entry hu
        simp [huid] at hne
  · have hval : (!userExists w.users uid) = true := by
      simpa using hex
    simpa [hval, queueWf] using h

theorem queueWf_removeUserFromQueueW (w : World) (m uid : String)
    (now : Nat) (h : queueWf w.queues m) :
    queueWf ((removeUserFromQueueW w m uid now).1).queues m := by
  rw [removeUserFromQueueW_queues]
  cases hq : kget w.queues m with
  | none =>
    have h1 : (removeUserFromQueue w.queues m uid now).1 = w.queues := by
      simp [removeUserFromQueue, hq]
    rw [h1]
    exact h
  | some qd =>
    by_cases hall : qd.users.all (fun x => x.userId != uid)
    · have h1 : (removeUserFromQueue w.queues m uid now).1 = w.queues := by
        simp [removeUserFromQueue, hq, hall]
      rw [h1]
      exact h
    · have h1 : (removeUserFromQueue w.queues m uid now).1 =
          kset w.queues m { qd with
            users := reindexFrom 1 (qd.users.filter (fun x => x.userId != uid))
            lastUpdated := now } := by
        simp [removeUserFromQueue, hq, hall]
      rw [h1]
      unfold queueWf
      rw [kget_kset_self]
      exact usersWf_remove _ _ (by simpa [queueWf, hq] using h)

theorem queueUserIds_remove (w : World) (m u : String) (now : Nat) :
    queueUserIds ((removeUserFromQueueW w m u now).1.queues) m =
      (queueUserIds w.queues m).filter (fun y => y != u) := by
  rw [removeUserFromQueueW_queues]
  cases hq : kget w.queues m with
  | none =>
    have h1 : (removeUserFromQueue w.queues m u now).1 = w.queues := by
      simp [removeUserFromQueue, hq]
    rw [h1]
    simp [queueUserIds, hq]
  | some qd =>
    by_cases hall : qd.users.all (fun x => x.userId != u)
    · have h1 : (removeUserFromQueue w.queues m u now).1 = w.queues := by
        simp [removeUserFromQueue, hq, hall]
      rw [h1]
      unfold queueUserIds
      rw [hq, eq_comm, List.filter_eq_self]
      intro y hy
      obtain ⟨entry, he, hid⟩ := List.mem_map.mp hy
      have hA := List.all_eq_true.mp hall entry he
      simpa [hid] using hA
    · have h1 : (removeUserFromQueue w.queues m u now).1 =
          kset w.queues m { qd with
            users := reindexFrom 1 (qd.users.filter (fun x => x.userId != u))
            lastUpdated := now } := by
        simp [removeUserFromQueue, hq, hall]
      rw [h1]
      simp only [queueUserIds, kget_kset_self, hq]
      rw [reindexFrom_map_userId, filter_map_userId]

/-- A deployment state before any queue document exists: user and machine
documents are arbitrary, every side-effect log empty. -/
def initialWorld (machines : List (String × Machine))
    (userDocs : List (String × UserData)) : World :=
  { machines := machines, users := userDocs, queues := [], graces := []
    incidents := [], incidentSeq := 0, commands := [], notifications := [] }

theorem queueWf_foldl (m : String) (ops : List QOp) :
    ∀ w : World, queueWf w.queues m →
      queueWf ((ops.foldl (applyQOp m) w)).queues m := by
  induction ops with
  | nil => intro w h; exact h
  | cons op ops ih =>
    intro w h
    refine ih _ ?_
    cases op with
    | join uid nm av now => exact queueWf_addUserToQueue w m uid nm av now h
    | leave uid now => exact queueWf_removeUserFromQueueW w m uid now h

/-- C2: any sequence of join/leave operations on a machine's queue keeps
positions exactly `1..N` (contiguous, in order, no duplicates) and keeps
userIds unique; a removal leaves exactly the other entries in their
original relative order. -/
theorem claim_C2_queue_invariant (machines : List (String × Machine))
    (userDocs : List (String × UserData)) (ops : List QOp) (m u : String)
    (now : Nat) :
    queueWf ((ops.foldl (applyQOp m) (initialWorld machines userDocs)).queues)
      m ∧
    queueUserIds ((removeUserFromQueueW
        (ops.foldl (applyQOp m) (initialWorld machines userDocs)) m u
        now).1.queues) m =
      (queueUserIds
        ((ops.foldl (applyQOp m) (initialWorld machines userDocs)).queues)
        m).filter (fun y => y != u) := by
  constructor
  · exact queueWf_foldl m ops _ (by simp [initialWorld, queueWf, kget])
  · exact queueUserIds_remove _ m u now

/-! ## Grace-record uniqueness (claim C3 machinery) -/

/-- All grace records stored for one machine. -/
def gracesFor (gs : List (String × GracePeriod)) (m : String) :
    List (String × GracePeriod) :=
  gs.filter (fun e => e.1 == m)

theorem length_filter_key_le_one {α : Type} (s : List (String × α))
    (m : String) (h : (s.map Prod.fst).Nodup) :
    (s.filter (fun e => e.1 == m)).length ≤ 1 := by
  induction s with
  | nil => simp
  | cons e s ih =>
    simp only [List.map_cons, List.nodup_cons] at h
    obtain ⟨he, hs⟩ := h
    by_cases hm : e.1 = m
    · have hnil : s.filter (fun x => x.1 == m) = [] := by
        rw [List.filter_eq_nil_iff]
        intro x hx hxm
        simp only [beq_iff_eq] at hxm
        exact he (by
          rw [hm, ← hxm]
          exact List.mem_map.mpr ⟨x, hx, rfl⟩)
      simp [hm, hnil]
    · simpa [hm] using ih hs

theorem keys_mem_kset {α : Type} (s : List (String × α)) (k : String)
    (v : α) : ∀ x, x ∈ (kset s k v).map Prod.fst →
      x ∈ s.map Prod.fst ∨ x = k := by
  induction s with
  | nil => intro x hx; simp [kset] at hx; simp [hx]
  | cons e s ih =>
    intro x hx
    by_cases he : e.1 = k
    · simp only [kset, he, beq_self_eq_true, if_true, List.map_cons,
        List.mem_cons] at hx
      rcases hx with hx | hx
      · exact Or.inr hx
      · exact Or.inl (by simp [List.mem_cons, hx])
    · simp only [kset, he, beq_iff_eq, if_false, List.map_cons,
        List.mem_cons] at hx
      rcases hx with hx | hx
      · exact Or.inl (by simp [hx])
      · rcases ih x hx with h1 | h1
        · exact Or.inl (by simp [List.mem_cons, h1])
        · exact Or.inr h1

theorem keys_kset_nodup {α : Type} (s : List (String × α)) (k : String)
    (v : α) (h : (s.map Prod.fst).Nodup) :
    ((kset s k v).map Prod.fst).Nodup := by
  induction s with
  | nil => simp [kset]
  | cons e s ih =>
    simp only [List.map_cons, List.nodup_cons] at h
    obtain ⟨he, hs⟩ := h
    by_cases hek : e.1 = k
    · simp only [kset, hek, beq_self_eq_true, if_true, List.map_cons,
        List.nodup_cons]
      exact ⟨hek ▸ he, hs⟩
    · simp only [kset, hek, beq_iff_eq, if_false, List.map_cons,
        List.nodup_cons]
      refine ⟨?_, ih hs⟩
      intro hmem
      rcases keys_mem_kset s k v e.1 hmem with h1 | h1
      · exact he h1
      · exact hek h1

theorem gracesFor_kset (gs : List (String × GracePeriod)) (m : String)
    (v : GracePeriod) (h : (gs.map Prod.fst).Nodup) :
    gracesFor (kset gs m v) m = [(m, v)] := by
  induction gs with
  | nil => simp [gracesFor, kset]
  | cons e s ih =>
    simp only [List.map_cons, List.nodup_cons] at h
    obtain ⟨he, hs⟩ := h
    by_cases hm : e.1 = m
    · have hnil : s.filter (fun x => x.1 == m) = [] := by
        rw [List.filter_eq_nil_iff]
        intro x hx hxm
        simp only [beq_iff_eq] at hxm
        exact he (by
          rw [hm, ← hxm]
          exact List.mem_map.mpr ⟨x, hx, rfl⟩)
      simp [gracesFor, kset, hm, hnil]
    · simpa [gracesFor, kset, hm] using ih hs

/-- C3: the RTDB slot `gracePeriods/{machineId}` holds at most one record
per machine, and starting a grace period overwrites that machine's slot
with the fresh active record while leaving every other machine's slot
alone. -/
theorem claim_C3_grace_at_most_one (w : World) (m uid : String) (now : Nat)
    (h : (w.graces.map Prod.fst).Nodup) :
    (gracesFor w.graces m).length ≤ 1 ∧
    kget (startGracePeriod w m uid now).graces m =
      some (freshGrace m uid now) ∧
    gracesFor (startGracePeriod w m uid now).graces m =
      [(m, freshGrace m uid now)] ∧
    ((startGracePeriod w m uid now).graces.map Prod.fst).Nodup ∧
    (∀ m2, m2 ≠ m →
      kget (startGracePeriod w m uid now).graces m2 = kget w.graces m2) := by
  refine ⟨length_filter_key_le_one _ _ h, ?_, ?_, ?_, ?_⟩
  · exact kget_kset_self _ _ _
  · exact gracesFor_kset _ _ _ h
  · exact keys_kset_nodup _ _ _ h
  · intro m2 hm2
    exact kget_kset_ne _ _ _ _ hm2

@[simp] theorem strOpt_none : strOpt none = none := rfl

theorem strOpt_some (s : String) (h : s ≠ "") : strOpt (some s) = some s := by
  simp [strOpt, h]

/-! ## Claim C1: scanning as queue head -/

theorem getNextUser_pair (w : World) (m : String) (qd : QueueDocument)
    (a b : QueueUser) (hqd : kget w.queues m = some qd)
    (husers : qd.users = [a, b]) (hapos : a.position = 1)
    (hbpos : b.position = 2) : getNextUser w.queues m = some a := by
  simp [getNextUser, hqd, husers, sortByPosition, insertByPos, hapos, hbpos]

theorem scanHandler_case2_eq (w : World) (m H : String)
    (machine : Machine) (user : UserData) (now : Nat)
    (hm : m ≠ "") (hH : H ≠ "")
    (hmach : kget w.machines m = some machine)
    (huser : kget w.users H = some user)
    (hcur : strOpt machine.currentUserId ≠ some H)
    (hnext : (getNextUser w.queues m).map (fun u => u.userId) = some H) :
    scanHandler w m H now =
      ({ okResp 200 with result := some "authorized"
                         message := some "Your turn! Door unlocked." },
       pushNote (unlockDoor (setCurrentUser
         (removeUserFromQueueW w m H now).1 m (some H) now) m now)
         H "session_started") := by
  unfold scanHandler getMachine getUser
  rw [hmach, huser]
  simp [hm, hH, hcur, hnext, strOpt_some H hH]

/-- C1 (amended): when the queue head H of a queue `{H, X}` scans, the
handler removes H from the queue (X moves to position 1), sets the
machine's occupant to H with the head recomputed to X, and issues one
unlock command — but it does NOT clear the machine's GracePeriod record:
the grace store is left exactly as it was (clearing is the job of the
separate claim-grace endpoint), and no incident is created. -/
theorem claim_C1_head_scan (w : World) (m H B : String)
    (machine : Machine) (user : UserData) (qd : QueueDocument)
    (a b : QueueUser) (now : Nat)
    (hm : m ≠ "") (hH : H ≠ "") (hB : B ≠ "") (hBH : B ≠ H)
    (hmach : kget w.machines m = some machine)
    (huser : kget w.users H = some user)
    (hcur : strOpt machine.currentUserId ≠ some H)
    (hqd : kget w.queues m = some qd)
    (husers : qd.users = [a, b])
    (haid : a.userId = H) (hapos : a.position = 1)
    (hbid : b.userId = B) (hbpos : b.position = 2) :
    (scanHandler w m H now).1 =
      { okResp 200 with result := some "authorized"
                        message := some "Your turn! Door unlocked." } ∧
    kget (scanHandler w m H now).2.queues m =
      some { qd with users := [{ b with position := 1 }]
                     lastUpdated := now } ∧
    kget (scanHandler w m H now).2.machines m =
      some { machine with currentUserId := some H, nextUserId := some B
                          status := "In Use", lastUpdated := now } ∧
    (scanHandler w m H now).2.commands =
      w.commands ++ [⟨m, "unlock", now⟩] ∧
    (scanHandler w m H now).2.graces = w.graces ∧
    (scanHandler w m H now).2.incidents = w.incidents := by
  have hnextU : getNextUser w.queues m = some a :=
    getNextUser_pair w m qd a b hqd husers hapos hbpos
  have hnext : (getNextUser w.queues m).map (fun u => u.userId) = some H := by
    rw [hnextU]
    simp [haid]
  have hscan := scanHandler_case2_eq w m H machine user now hm hH hmach
    huser hcur hnext
  have hrm : (removeUserFromQueueW w m H now).1.queues =
      kset w.queues m { qd with users := [{ b with position := 1 }]
                                lastUpdated := now } := by
    rw [removeUserFromQueueW_queues]
    have hBHne : (b.userId != H) = true := by simp [hbid, hBH]
    have haH : (a.userId != H) = false := by simp [haid]
    simp [removeUserFromQueue, hqd, husers, haH, hBHne, reindexFrom]
  have hnext2 : getNextUser (removeUserFromQueueW w m H now).1.queues m =
      some { b with position := 1 } := by
    rw [hrm]
    simp [getNextUser, kget_kset_self, sortByPosition, insertByPos]
  refine ⟨?_, ?_, ?_, ?_, ?_, ?_⟩
  · rw [hscan]
  · rw [hscan]
    simp only [pushNote_queues]
    show kget (setCurrentUser _ m (some H) now).queues m = _
    rw [setCurrentUser_queues, hrm, kget_kset_self]
  · rw [hscan]
    simp only [pushNote_machines]
    show kget (setCurrentUser _ m (some H) now).machines m = _
    unfold setCurrentUser
    rw [removeUserFromQueueW_machines, hmach]
    simp only
    unfold updateNextUserId
    rw [hnext2]
    simp only [setCurrentUser_queues]
    rw [kget_kset_self]
    simp only
    rw [kget_kset_self]
    simp [hH, hbid, strOpt_some B hB]
  · rw [hscan]
    simp only [pushNote_commands]
    show (unlockDoor _ m now).commands = _
    unfold unlockDoor
    rw [pushCommand_commands, setCurrentUser_commands,
      removeUserFromQueueW_commands]
  · rw [hscan]
    simp only [pushNote_graces]
    show (unlockDoor _ m now).graces = _
    unfold unlockDoor
    rw [pushCommand_graces, setCurrentUser_graces,
      removeUserFromQueueW_graces]
  · rw [hscan]
    simp only [pushNote_incidents]
    show (unlockDoor _ m now).incidents = _
    unfold unlockDoor
    rw [pushCommand_incidents, setCurrentUser_incidents,
      removeUserFromQueueW_incidents]

/-- Sample queue head for machine M1. -/
def quH : QueueUser := ⟨1, "H", "Hank", none, "t1", 10, 10⟩
/-- Sample second-in-line for machine M1. -/
def quX : QueueUser := ⟨2, "X", "Xena", none, "t2", 20, 20⟩
/-- Sample machine document: free machine whose cached head is H. -/
def machC1 : Machine := ⟨none, some "H", "Available", 0⟩
/-- Sample user document. -/
def userH : UserData := ⟨some "Hank", none, none, none⟩
/-- Sample queue document with waiting list {H, X}. -/
def qdC1 : QueueDocument := ⟨"M1", "Active", 0, [quH, quX]⟩

/-- A state where machine M1 has queue {H, X} and an existing active
GracePeriod for H. -/
def wC1 : World :=
  { machines := [("M1", machC1)]
    users := [("H", userH), ("X", ⟨some "Xena", none, none, none⟩)]
    queues := [("M1", qdC1)]
    graces := [("M1", freshGrace "M1" "H" 0)]
    incidents := [], incidentSeq := 0, commands := [], notifications := [] }

/-- C1 counterexample: with an active GracePeriod stored for M1, the
queue head's scan succeeds but the GracePeriod record is still present
and still active afterwards — the handler does not clear it, contrary to
the claim. -/
theorem claim_C1_counterexample :
    (scanHandler wC1 "M1" "H" 1000).1.result = some "authorized" ∧
    kget (scanHandler wC1 "M1" "H" 1000).2.graces "M1" =
      some (freshGrace "M1" "H" 0) ∧
    (freshGrace "M1" "H" 0).status = "active" := by decide

/-- C1 witness: the amended theorem evaluated at the sample state. -/
theorem claim_C1_witness :
    (scanHandler wC1 "M1" "H" 1000).1 =
      { okResp 200 with result := some "authorized"
                        message := some "Your turn! Door unlocked." } ∧
    kget (scanHandler wC1 "M1" "H" 1000).2.queues "M1" =
      some { qdC1 with users := [{ quX with position := 1 }]
                       lastUpdated := 1000 } ∧
    kget (scanHandler wC1 "M1" "H" 1000).2.machines "M1" =
      some { machC1 with currentUserId := some "H", nextUserId := some "X"
                         status := "In Use", lastUpdated := 1000 } ∧
    (scanHandler wC1 "M1" "H" 1000).2.commands =
      wC1.commands ++ [⟨"M1", "unlock", 1000⟩] ∧
    (scanHandler wC1 "M1" "H" 1000).2.graces = wC1.graces ∧
    (scanHandler wC1 "M1" "H" 1000).2.incidents = wC1.incidents :=
  claim_C1_head_scan wC1 "M1" "H" "X" machC1 userH qdC1 quH quX 1000
    (by decide) (by decide) (by decide) (by decide) (by decide) (by decide)
    (by decide) (by decide) (by decide) (by decide) (by decide) (by decide)
    (by decide)

/-- A state with grace records for two distinct machines (unique keys). -/
def wC3 : World :=
  { machines := [], users := [], queues := []
    graces := [("M1", freshGrace "M1" "A" 0), ("M2", freshGrace "M2" "B" 0)]
    incidents := [], incidentSeq := 0, commands := [], notifications := [] }

/-- C3 witness: the uniqueness/overwrite theorem evaluated at a two-machine
grace store. -/
theorem claim_C3_witness :
    (gracesFor wC3.graces "M1").length ≤ 1 ∧
    kget (startGracePeriod wC3 "M1" "U9" 77).graces "M1" =
      some (freshGrace "M1" "U9" 77) ∧
    gracesFor (startGracePeriod wC3 "M1" "U9" 77).graces "M1" =
      [("M1", freshGrace "M1" "U9" 77)] ∧
    ((startGracePeriod wC3 "M1" "U9" 77).graces.map Prod.fst).Nodup ∧
    (∀ m2, m2 ≠ "M1" →
      kget (startGracePeriod wC3 "M1" "U9" 77).graces m2 =
        kget wC3.graces m2) :=
  claim_C3_grace_at_most_one wC3 "M1" "U9" 77 (by decide)

/-! ## Claim C4: grace expiry advancement -/

@[simp] theorem startNewGracePeriod_queues (w : World) (m u : String)
    (n : Nat) : (startNewGracePeriod w m u n).queues = w.queues := rfl
@[simp] theorem startNewGracePeriod_machines (w : World) (m u : String)
    (n : Nat) : (startNewGracePeriod w m u n).machines = w.machines := rfl
@[simp] theorem startNewGracePeriod_graces (w : World) (m u : String)
    (n : Nat) :
    (startNewGracePeriod w m u n).graces =
      kset w.graces m (freshGrace m u n) := rfl

theorem graceTimeoutHandler_expired_eq (w : World) (m u : String)
    (gp : GracePeriod) (now : Nat) (hm : m ≠ "") (hu : u ≠ "")
    (hgp : kget w.graces m = some gp) (huid : gp.userId = u)
    (hact : gp.status = "active") :
    graceTimeoutHandler w m u "expired" now =
      ({ okResp 200 with message := some "User removed from queue." },
       (handleExpired w m u gp now).1) := by
  unfold graceTimeoutHandler
  rw [hgp]
  simp [hm, hu, huid, hact]

/-- C4: expiring the active grace of queue head A — with queue `{A, B}`,
A is evicted, B moves to position 1 and becomes the machine's head, and a
fresh active GracePeriod for B with `expiresAt = now + 5min` is stored;
with queue exactly `{A}` (machine unoccupied), the queue empties, the
grace slot is removed with no successor grace, and the machine's head
becomes none. -/
theorem claim_C4_grace_expiry (w : World) (m A B : String)
    (machine : Machine) (gp : GracePeriod) (qd : QueueDocument)
    (a b : QueueUser) (now : Nat)
    (hm : m ≠ "") (hA : A ≠ "")
    (hmach : kget w.machines m = some machine)
    (hgp : kget w.graces m = some gp)
    (huid : gp.userId = A) (hact : gp.status = "active")
    (hqd : kget w.queues m = some qd) :
    ((qd.users = [a, b] ∧ a.userId = A ∧ a.position = 1 ∧
      b.userId = B ∧ b.position = 2 ∧ B ≠ A ∧ B ≠ "") →
      ((graceTimeoutHandler w m A "expired" now).1.status = 200 ∧
       kget (graceTimeoutHandler w m A "expired" now).2.queues m =
         some { qd with users := [{ b with position := 1 }]
                        lastUpdated := now } ∧
       kget (graceTimeoutHandler w m A "expired" now).2.graces m =
         some (freshGrace m B now) ∧
       (freshGrace m B now).status = "active" ∧
       (freshGrace m B now).expiresAt = now + 5 * 60 * 1000 ∧
       kget (graceTimeoutHandler w m A "expired" now).2.machines m =
         some { machine with nextUserId := some B, lastUpdated := now })) ∧
    ((qd.users = [a] ∧ a.userId = A ∧ machine.currentUserId = none) →
      ((graceTimeoutHandler w m A "expired" now).1.status = 200 ∧
       kget (graceTimeoutHandler w m A "expired" now).2.queues m =
         some { qd with users := [], lastUpdated := now } ∧
       kget (graceTimeoutHandler w m A "expired" now).2.graces m = none ∧
       kget (graceTimeoutHandler w m A "expired" now).2.machines m =
         some { machine with nextUserId := none, lastUpdated := now })) := by
  have heval := graceTimeoutHandler_expired_eq w m A gp now hm hA hgp huid
    hact
  constructor
  · rintro ⟨hus, haid, hapos, hbid, hbpos, hBA, hBne⟩
    rw [heval]
    have hrm : (removeUserFromQueue w.queues m A now).1 =
        kset w.queues m { qd with users := [{ b with position := 1 }]
                                  lastUpdated := now } := by
      have haH : (a.userId != A) = false := by simp [haid]
      have hbH : (b.userId != A) = true := by simp [hbid, hBA]
      simp [removeUserFromQueue, hqd, hus, haH, hbH, reindexFrom]
    have hnu : getNextUser (removeUserFromQueue w.queues m A now).1 m =
        some { b with position := 1 } := by
      rw [hrm]
      simp [getNextUser, kget_kset_self, sortByPosition, insertByPos]
    unfold handleExpired
    simp only [updateNextUserId_queues, pushNote_queues,
      removeUserFromQueueW_queues]
    rw [hnu]
    refine ⟨rfl, ?_, ?_, rfl, rfl, ?_⟩
    · simp only [pushNote_queues, startNewGracePeriod_queues,
        updateNextUserId_queues, removeUserFromQueueW_queues]
      rw [hrm, kget_kset_self]
    · simp only [pushNote_graces, startNewGracePeriod_graces,
        updateNextUserId_graces, removeUserFromQueueW_graces,
        pushNote_graces]
      rw [kget_kset_self]
      simp [hbid]
    · simp only [pushNote_machines, startNewGracePeriod_machines]
      unfold updateNextUserId
      simp only [pushNote_queues, removeUserFromQueueW_queues,
        pushNote_machines, removeUserFromQueueW_machines]
      rw [hnu, hmach]
      simp only
      rw [kget_kset_self]
      simp [hbid, strOpt_some B hBne]
  · rintro ⟨hus, haid, hcurNone⟩
    rw [heval]
    have hrm : (removeUserFromQueue w.queues m A now).1 =
        kset w.queues m { qd with users := [], lastUpdated := now } := by
      have haH : (a.userId != A) = false := by simp [haid]
      simp [removeUserFromQueue, hqd, hus, haH, reindexFrom]
    have hnu : getNextUser (removeUserFromQueue w.queues m A now).1 m =
        none := by
      rw [hrm]
      simp [getNextUser, kget_kset_self]
    unfold handleExpired
    simp only [updateNextUserId_queues, pushNote_queues,
      removeUserFromQueueW_queues]
    rw [hnu]
    refine ⟨rfl, ?_, ?_, ?_⟩
    · simp only [updateNextUserId_queues, pushNote_queues,
        removeUserFromQueueW_queues]
      rw [hrm, kget_kset_self]
    · simp only [updateNextUserId_graces, pushNote_graces,
        removeUserFromQueueW_graces]
      exact kget_kdel_self _ _
    · unfold updateNextUserId
      simp only [pushNote_queues, removeUserFromQueueW_queues,
        pushNote_machines, removeUserFromQueueW_machines]
      rw [hnu, hmach]
      simp only
      rw [kget_kset_self]
      simp

/-- Sample lone queue entry for the single-waiter expiry scenario. -/
def quA : QueueUser := ⟨1, "A", "Ann", none, "t3", 5, 5⟩
/-- Sample unoccupied machine whose cached head is A. -/
def machC4 : Machine := ⟨none, some "A", "Available", 0⟩
/-- Sample queue document with waiting list {A}. -/
def qdC4 : QueueDocument := ⟨"M1", "Active", 0, [quA]⟩

/-- A state where machine M1 is unoccupied, has queue {A}, and an active
GracePeriod for A. -/
def wC4 : World :=
  { machines := [("M1", machC4)]
    users := [("A", ⟨some "Ann", none, none, none⟩)]
    queues := [("M1", qdC4)]
    graces := [("M1", freshGrace "M1" "A" 0)]
    incidents := [], incidentSeq := 0, commands := [], notifications := [] }

/-- C4 witness: the expiry theorem evaluated on a two-waiter queue {H, X}
(first component) and on a single-waiter queue {A} with no occupant
(second component). -/
theorem claim_C4_witness :
    ((graceTimeoutHandler wC1 "M1" "H" "expired" 50000).1.status = 200 ∧
     kget (graceTimeoutHandler wC1 "M1" "H" "expired" 50000).2.queues
       "M1" = some { qdC1 with users := [{ quX with position := 1 }]
                               lastUpdated := 50000 } ∧
     kget (graceTimeoutHandler wC1 "M1" "H" "expired" 50000).2.graces
       "M1" = some (freshGrace "M1" "X" 50000) ∧
     (freshGrace "M1" "X" 50000).status = "active" ∧
     (freshGrace "M1" "X" 50000).expiresAt = 50000 + 5 * 60 * 1000 ∧
     kget (graceTimeoutHandler wC1 "M1" "H" "expired" 50000).2.machines
       "M1" = some { machC1 with nextUserId := some "X"
                                 lastUpdated := 50000 }) ∧
    ((graceTimeoutHandler wC4 "M1" "A" "expired" 42).1.status = 200 ∧
     kget (graceTimeoutHandler wC4 "M1" "A" "expired" 42).2.queues "M1" =
       some { qdC4 with users := [], lastUpdated := 42 } ∧
     kget (graceTimeoutHandler wC4 "M1" "A" "expired" 42).2.graces "M1" =
       none ∧
     kget (graceTimeoutHandler wC4 "M1" "A" "expired" 42).2.machines
       "M1" = some { machC4 with nextUserId := none
                                 lastUpdated := 42 }) :=
  ⟨(claim_C4_grace_expiry wC1 "M1" "H" "X" machC1
      (freshGrace "M1" "H" 0) qdC1 quH quX 50000 (by decide) (by decide)
      (by decide) (by decide) (by decide) (by decide) (by decide)).1
    (by decide),
   (claim_C4_grace_expiry wC4 "M1" "A" "X" machC4
      (freshGrace "M1" "A" 0) qdC4 quA quX 42 (by decide) (by decide)
      (by decide) (by decide) (by decide) (by decide) (by decide)).2
    (by decide)⟩

/-! ## Claim C5: joining while already queued -/

/-- C5 (amended): a join request by an actor already in the machine's
queue is rejected by the endpoint with a 400 `ALREADY_IN_QUEUE` error and
the state — hence queue length and all positions — is unchanged; only the
queue-library `addUserToQueue`, when called directly, is idempotent and
returns the original stored entry without modifying anything. -/
theorem claim_C5_join_already_queued (w : World) (m u nm : String)
    (machine : Machine) (user : UserData) (av : Option String) (now : Nat)
    (hm : m ≠ "") (hu : u ≠ "")
    (hmach : kget w.machines m = some machine)
    (huser : kget w.users u = some user)
    (hin : isUserInQueue w.queues m u = true) :
    joinQueueHandler w m u nm now =
      ({ errResp 400 "Already in queue for this machine" with
         code := some "ALREADY_IN_QUEUE" }, w) ∧
    (addUserToQueue w m u nm av now).1 = w ∧
    (∃ entry, (addUserToQueue w m u nm av now).2 = some entry ∧
      entry.userId = u ∧
      ∃ qd, kget w.queues m = some qd ∧ entry ∈ qd.users) := by
  have hqd : ∃ qd, kget w.queues m = some qd ∧
      ∃ entry, qd.users.find? (fun x => x.userId == u) = some entry := by
    unfold isUserInQueue getUserPosition at hin
    cases hq : kget w.queues m with
    | none => simp only [hq] at hin; simp at hin
    | some qd =>
      simp only [hq] at hin
      cases hf : qd.users.find? (fun x => x.userId == u) with
      | none => simp only [hf] at hin; simp at hin
      | some entry => exact ⟨qd, rfl, entry, hf⟩
  obtain ⟨qd, hq, entry, hf⟩ := hqd
  have hexists : userExists w.users u = true := by
    simp [userExists, huser]
  refine ⟨?_, ?_, ?_⟩
  · unfold joinQueueHandler getMachine getUser
    rw [hmach, huser]
    simp [hm, hu, hin]
  · unfold addUserToQueue
    rw [hexists]
    simp only [Bool.not_true, Bool.false_eq_true, if_false]
    rw [hq]
    simp only [hf]
  · refine ⟨entry, ?_, ?_, qd, hq, ?_⟩
    · unfold addUserToQueue
      rw [hexists]
      simp only [Bool.not_true, Bool.false_eq_true, if_false]
      rw [hq]
      simp only [hf]
    · have := List.find?_some hf
      simpa using this
    · exact List.mem_of_find?_eq_some hf
  
/-- C5 counterexample: with H already queued on M1, the endpoint answers
with a 400 `ALREADY_IN_QUEUE` error instead of returning the existing
entry, so the claim's "returns the original entry rather than an error"
is false for the join operation as exposed to callers. -/
theorem claim_C5_counterexample :
    (joinQueueHandler wC1 "M1" "H" "Hank" 2000).1.success = false ∧
    (joinQueueHandler wC1 "M1" "H" "Hank" 2000).1.status = 400 ∧
    (joinQueueHandler wC1 "M1" "H" "Hank" 2000).1.code =
      some "ALREADY_IN_QUEUE" := by decide

/-- C5 witness: the amended theorem evaluated with H already in M1's
queue. -/
theorem claim_C5_witness :
    joinQueueHandler wC1 "M1" "H" "Hank" 2000 =
      ({ errResp 400 "Already in queue for this machine" with
         code := some "ALREADY_IN_QUEUE" }, wC1) ∧
    (addUserToQueue wC1 "M1" "H" "Hank" none 2000).1 = wC1 ∧
    (∃ entry, (addUserToQueue wC1 "M1" "H" "Hank" none 2000).2 =
        some entry ∧ entry.userId = "H" ∧
      ∃ qd, kget wC1.queues "M1" = some qd ∧ entry ∈ qd.users) :=
  claim_C5_join_already_queued wC1 "M1" "H" "Hank" machC1 userH none 2000
    (by decide) (by decide) (by decide) (by decide) (by decide)

/-! ## Claim C6: terminal incidents reject further actions -/

/-- Count the buzzer commands issued so far. -/
def buzzerCount (cs : List Command) : Nat :=
  (cs.filter (fun c => c.kind == "buzzer")).length

theorem buzzerCount_append_buzzer (cs : List Command) (m : String)
    (n : Nat) : buzzerCount (cs ++ [⟨m, "buzzer", n⟩]) =
      buzzerCount cs + 1 := by
  simp [buzzerCount]

theorem incidentActionHandler_nonpending (w : World) (i u act : String)
    (now : Nat) (inc : Incident)
    (hi : i ≠ "") (hu : u ≠ "") (ha : act ≠ "")
    (hinc : kget w.incidents i = some inc)
    (hst : inc.status ≠ "pending") :
    incidentActionHandler w i u act now =
      ({ errResp 400 ("Incident already " ++ inc.status) with
         dataStatus := some inc.status }, w) := by
  unfold incidentActionHandler
  rw [hinc]
  simp [hi, hu, ha, hst]

/-- The merge applied by `handleConfirmNotMe`: `status := confirmed`,
`resolvedAt`, `buzzerTriggered := true`. -/
def markConfirmed (inc : Incident) (now : Nat) : Incident :=
  { inc with
    status := "confirmed"
    resolvedAt := some now
    buzzerTriggered := true }

theorem incidentActionHandler_confirm_eq (w : World) (i u : String)
    (now : Nat) (inc : Incident)
    (hi : i ≠ "") (hu : u ≠ "")
    (hinc : kget w.incidents i = some inc)
    (hpend : inc.status = "pending")
    (hgrantee : u = inc.nextUserId) :
    incidentActionHandler w i u "confirm_not_me" now =
      ({ okResp 200 with
          message := some "Confirmed. Buzzer activated."
          dataStatus := some "confirmed" },
       pushNote (pushNote (triggerBuzzer
         { w with incidents := kset w.incidents i (markConfirmed inc now) }
         inc.machineId now) inc.intruderId "buzzer_triggered")
         inc.nextUserId "buzzer_triggered") := by
  have hguard : (u != inc.nextUserId) = false := by simp [hgrantee]
  unfold incidentActionHandler
  rw [hinc]
  simp [hi, hu, hpend, handleConfirmNotMe, hguard, markConfirmed]

/-- C6: once an incident is in a terminal status, every further action
(`confirm_not_me`, `dismiss`, `timeout` — or anything else) is rejected
with a 400 conflict reporting that terminal status and the state is
completely unchanged (so `buzzerTriggered` persists and no side effect
runs); in particular, confirming twice yields one buzzer command in total
and a second answer of "Incident already confirmed". -/
theorem claim_C6_incident_terminal (w : World) (i u act : String)
    (now now2 : Nat) (inc : Incident)
    (hi : i ≠ "") (hu : u ≠ "") (ha : act ≠ "")
    (hinc : kget w.incidents i = some inc) :
    (inc.status ≠ "pending" →
      incidentActionHandler w i u act now =
        ({ errResp 400 ("Incident already " ++ inc.status) with
           dataStatus := some inc.status }, w)) ∧
    (inc.status = "pending" → u = inc.nextUserId →
      ((incidentActionHandler w i u "confirm_not_me" now).1.status = 200 ∧
       kget (incidentActionHandler w i u "confirm_not_me" now).2.incidents
         i = some (markConfirmed inc now) ∧
       buzzerCount
         (incidentActionHandler w i u "confirm_not_me" now).2.commands =
         buzzerCount w.commands + 1 ∧
       (incidentActionHandler
         (incidentActionHandler w i u "confirm_not_me" now).2 i u
         "confirm_not_me" now2).1 =
         { errResp 400 "Incident already confirmed" with
           dataStatus := some "confirmed" } ∧
       (incidentActionHandler
         (incidentActionHandler w i u "confirm_not_me" now).2 i u
         "confirm_not_me" now2).2 =
         (incidentActionHandler w i u "confirm_not_me" now).2)) := by
  constructor
  · intro hst
    exact incidentActionHandler_nonpending w i u act now inc hi hu ha hinc
      hst
  · intro hpend hgrantee
    have heq := incidentActionHandler_confirm_eq w i u now inc hi hu hinc
      hpend hgrantee
    have hinc1 : kget
        (incidentActionHandler w i u "confirm_not_me" now).2.incidents i =
        some (markConfirmed inc now) := by
      rw [heq]
      simp only [pushNote_incidents]
      show kget (kset w.incidents i _) i = _
      exact kget_kset_self _ _ _
    have hsecond := incidentActionHandler_nonpending
      (incidentActionHandler w i u "confirm_not_me" now).2 i u
      "confirm_not_me" now2 (markConfirmed inc now)
      hi hu (by decide) hinc1 (by simp [markConfirmed])
    refine ⟨by rw [heq]; rfl, hinc1, ?_, ?_, ?_⟩
    · rw [heq]
      simp only [pushNote_commands]
      show buzzerCount ((triggerBuzzer _ inc.machineId now).commands) = _
      unfold triggerBuzzer
      rw [pushCommand_commands]
      show buzzerCount (w.commands ++ [⟨inc.machineId, "buzzer", now⟩]) = _
      exact buzzerCount_append_buzzer w.commands inc.machineId now
    · rw [hsecond]
      simp [markConfirmed]
    · rw [hsecond]

/-- Sample pending incident: intruder Z, rightful next user H. -/
def incPend : Incident :=
  ⟨"M1", "Z", "Zed", "H", "Hank", "pending", 0, 60000, none, false, none⟩
/-- Sample already-dismissed incident. -/
def incDone : Incident := { incPend with status := "dismissed" }

/-- A state with one pending incident. -/
def wC6 : World :=
  { machines := [], users := [], queues := [], graces := []
    incidents := [("i1", incPend)], incidentSeq := 0, commands := []
    notifications := [] }

/-- A state with one already-dismissed incident. -/
def wC6b : World := { wC6 with incidents := [("i2", incDone)] }

/-- C6 witness: the terminal-guard theorem applied to a dismissed
incident (any action bounces) and to a pending incident confirmed
twice. -/
theorem claim_C6_witness :
    (incidentActionHandler wC6b "i2" "H" "timeout" 5 =
      ({ errResp 400 ("Incident already " ++ incDone.status) with
         dataStatus := some incDone.status }, wC6b)) ∧
    ((incidentActionHandler wC6 "i1" "H" "confirm_not_me" 100).1.status =
       200 ∧
     kget (incidentActionHandler wC6 "i1" "H" "confirm_not_me"
       100).2.incidents "i1" = some (markConfirmed incPend 100) ∧
     buzzerCount (incidentActionHandler wC6 "i1" "H" "confirm_not_me"
       100).2.commands = buzzerCount wC6.commands + 1 ∧
     (incidentActionHandler (incidentActionHandler wC6 "i1" "H"
       "confirm_not_me" 100).2 "i1" "H" "confirm_not_me" 200).1 =
       { errResp 400 "Incident already confirmed" with
         dataStatus := some "confirmed" } ∧
     (incidentActionHandler (incidentActionHandler wC6 "i1" "H"
       "confirm_not_me" 100).2 "i1" "H" "confirm_not_me" 200).2 =
       (incidentActionHandler wC6 "i1" "H" "confirm_not_me" 100).2) :=
  ⟨(claim_C6_incident_terminal wC6b "i2" "H" "timeout" 5 0 incDone
      (by decide) (by decide) (by decide) (by decide)).1 (by decide),
   (claim_C6_incident_terminal wC6 "i1" "H" "confirm_not_me" 100 200
      incPend (by decide) (by decide) (by decide) (by decide)).2
    (by decide) (by decide)⟩

/-! ## Claim C7: manual incident timeout and the 5-second tolerance -/

/-- The merge applied by `handleTimeout`: `status := timeout`,
`resolvedAt`, `buzzerTriggered := true`. -/
def markTimeout (inc : Incident) (now : Nat) : Incident :=
  { inc with
    status := "timeout"
    resolvedAt := some now
    buzzerTriggered := true }

theorem incidentActionHandler_timeout_accept (w : World) (i u : String)
    (now : Nat) (inc : Incident)
    (hi : i ≠ "") (hu : u ≠ "")
    (hinc : kget w.incidents i = some inc)
    (hpend : inc.status = "pending")
    (hclose : ¬ inc.expiresAt - now > 5000) :
    incidentActionHandler w i u "timeout" now =
      ({ okResp 200 with
          message := some "Timeout. Buzzer activated."
          dataStatus := some "timeout" },
       pushNote (pushNote (triggerBuzzer
         { w with incidents := kset w.incidents i (markTimeout inc now) }
         inc.machineId now) inc.intruderId "buzzer_triggered")
         inc.nextUserId "buzzer_triggered") := by
  unfold incidentActionHandler
  rw [hinc]
  simp [hi, hu, hpend, handleTimeout, hclose, markTimeout]

theorem incidentActionHandler_timeout_reject (w : World) (i u : String)
    (now : Nat) (inc : Incident)
    (hi : i ≠ "") (hu : u ≠ "")
    (hinc : kget w.incidents i = some inc)
    (hpend : inc.status = "pending")
    (hnow : now < inc.expiresAt)
    (hdiff : inc.expiresAt - now > 5000) :
    incidentActionHandler w i u "timeout" now =
      (errResp 500 "Internal server error", w) := by
  unfold incidentActionHandler
  rw [hinc]
  simp [hi, hu, hpend, handleTimeout, hnow, hdiff]

/-- C7 (amended): a manual `timeout` 3 seconds before `expiresAt` is
accepted (inside the 5-second tolerance) and resolves the incident with
one buzzer command; a manual `timeout` 30 seconds early is rejected and
changes nothing — but the rejection surfaces through the endpoint's
catch-all as a 500 "Internal server error", not as an
InvalidRequest/Conflict-style 400. -/
theorem claim_C7_timeout_window (w : World) (i u : String) (inc : Incident)
    (hi : i ≠ "") (hu : u ≠ "")
    (hinc : kget w.incidents i = some inc)
    (hpend : inc.status = "pending")
    (hexp : 30000 ≤ inc.expiresAt) :
    ((incidentActionHandler w i u "timeout"
        (inc.expiresAt - 3000)).1.status = 200 ∧
     (incidentActionHandler w i u "timeout"
        (inc.expiresAt - 3000)).1.dataStatus = some "timeout" ∧
     kget (incidentActionHandler w i u "timeout"
        (inc.expiresAt - 3000)).2.incidents i =
       some (markTimeout inc (inc.expiresAt - 3000)) ∧
     buzzerCount (incidentActionHandler w i u "timeout"
        (inc.expiresAt - 3000)).2.commands =
       buzzerCount w.commands + 1) ∧
    incidentActionHandler w i u "timeout" (inc.expiresAt - 30000) =
      (errResp 500 "Internal server error", w) := by
  have haccept := incidentActionHandler_timeout_accept w i u
    (inc.expiresAt - 3000) inc hi hu hinc hpend (by omega)
  have hreject := incidentActionHandler_timeout_reject w i u
    (inc.expiresAt - 30000) inc hi hu hinc hpend (by omega) (by omega)
  refine ⟨⟨by simp [haccept, okResp], by simp [haccept], ?_, ?_⟩, hreject⟩
  · rw [haccept]
    simp only [pushNote_incidents]
    show kget (kset w.incidents i _) i = _
    exact kget_kset_self _ _ _
  · rw [haccept]
    simp only [pushNote_commands]
    show buzzerCount
      (w.commands ++ [⟨inc.machineId, "buzzer", inc.expiresAt - 3000⟩]) = _
    exact buzzerCount_append_buzzer _ _ _

/-- C7 counterexample: for a concrete pending incident with
`expiresAt = 100000`, the manual timeout at `now = 70000` (30 seconds
early) is answered with HTTP 500 "Internal server error" — it does fail,
but not with the InvalidRequest/Conflict-class (4xx) response the claim
asserts. -/
theorem claim_C7_counterexample :
    (incidentActionHandler
      { wC6 with incidents :=
          [("i1", { incPend with expiresAt := 100000 })] }
      "i1" "H" "timeout" 70000).1.status = 500 ∧
    (incidentActionHandler
      { wC6 with incidents :=
          [("i1", { incPend with expiresAt := 100000 })] }
      "i1" "H" "timeout" 70000).1.error = some "Internal server error" ∧
    ¬ (incidentActionHandler
      { wC6 with incidents :=
          [("i1", { incPend with expiresAt := 100000 })] }
      "i1" "H" "timeout" 70000).1.status = 400 := by decide

/-- C7 witness: the tolerance-window theorem evaluated at the concrete
pending incident with `expiresAt = 100000`. -/
theorem claim_C7_witness :
    ((incidentActionHandler
        { wC6 with incidents :=
            [("i1", { incPend with expiresAt := 100000 })] }
        "i1" "H" "timeout" (100000 - 3000)).1.status = 200 ∧
     (incidentActionHandler
        { wC6 with incidents :=
            [("i1", { incPend with expiresAt := 100000 })] }
        "i1" "H" "timeout" (100000 - 3000)).1.dataStatus =
       some "timeout" ∧
     kget (incidentActionHandler
        { wC6 with incidents :=
            [("i1", { incPend with expiresAt := 100000 })] }
        "i1" "H" "timeout" (100000 - 3000)).2.incidents "i1" =
       some (markTimeout { incPend with expiresAt := 100000 }
         (100000 - 3000)) ∧
     buzzerCount (incidentActionHandler
        { wC6 with incidents :=
            [("i1", { incPend with expiresAt := 100000 })] }
        "i1" "H" "timeout" (100000 - 3000)).2.commands =
       buzzerCount ({ wC6 with incidents :=
            [("i1", { incPend with expiresAt := 100000 })] } :
          World).commands + 1) ∧
    incidentActionHandler
      { wC6 with incidents :=
          [("i1", { incPend with expiresAt := 100000 })] }
      "i1" "H" "timeout" (100000 - 30000) =
      (errResp 500 "Internal server error",
       { wC6 with incidents :=
           [("i1", { incPend with expiresAt := 100000 })] }) :=
  claim_C7_timeout_window
    { wC6 with incidents := [("i1", { incPend with expiresAt := 100000 })] }
    "i1" "H" { incPend with expiresAt := 100000 }
    (by decide) (by decide) (by decide) (by decide) (by decide)

/-! ## Claim C8: sweep idempotence -/

@[simp] theorem kset_singleton_same {α : Type} (k : String) (v0 v : α) :
    kset [(k, v0)] k v = [(k, v)] := by
  simp [kset]

@[simp] theorem kdel_singleton_same {α : Type} (k : String) (v0 : α) :
    kdel [(k, v0)] k = [] := by
  simp [kdel]

@[simp] theorem cronIncidentStep_graces (w : World) (i : String)
    (inc : Incident) (n : Nat) :
    (cronIncidentStep w i inc n).graces = w.graces := rfl
@[simp] theorem cronIncidentStep_incidents (w : World) (i : String)
    (inc : Incident) (n : Nat) :
    (cronIncidentStep w i inc n).incidents =
      kset w.incidents i (markCronTimeout inc n) := rfl
@[simp] theorem cronIncidentStep_commands (w : World) (i : String)
    (inc : Incident) (n : Nat) :
    (cronIncidentStep w i inc n).commands =
      w.commands ++ [⟨inc.machineId, "buzzer", n⟩] := rfl

theorem cronGraceStep_skip (w : World) (m : String) (gp : GracePeriod)
    (now : Nat) (h : gp.status ≠ "active" ∨ now < gp.expiresAt) :
    cronGraceStep w m gp now = w := by
  unfold cronGraceStep
  by_cases hs : gp.status = "active"
  · rcases h with h | h
    · exact absurd hs h
    · simp [hs, h]
  · simp [hs]

theorem cronGraceStep_incidents (w : World) (m : String)
    (gp : GracePeriod) (now : Nat) :
    (cronGraceStep w m gp now).incidents = w.incidents := by
  unfold cronGraceStep
  split
  · rfl
  split
  · rfl
  dsimp only
  split <;> simp

theorem cronGraceStep_commands (w : World) (m : String)
    (gp : GracePeriod) (now : Nat) :
    (cronGraceStep w m gp now).commands = w.commands := by
  unfold cronGraceStep
  split
  · rfl
  split
  · rfl
  dsimp only
  split <;> simp

theorem cronGraceStep_graces_run (w : World) (m : String)
    (gp : GracePeriod) (now : Nat) (hg : w.graces = [(m, gp)])
    (hact : gp.status = "active") (hexp : gp.expiresAt ≤ now) :
    (cronGraceStep w m gp now).graces = [] ∨
    ∃ u, (cronGraceStep w m gp now).graces =
      [(m, freshGrace m u now)] := by
  unfold cronGraceStep
  have hnl : ¬ gp.expiresAt > now := by omega
  simp only [hact, bne_self_eq_false, Bool.false_eq_true, if_false, hnl]
  split
  · rename_i nu _
    refine Or.inr ⟨nu.userId, ?_⟩
    simp [hg]
  · refine Or.inl ?_
    simp [hg]

theorem cron_second_run (w2 : World) (m i2 : String) (inc2 : Incident)
    (now : Nat)
    (hg2 : w2.graces = [] ∨ ∃ u, w2.graces = [(m, freshGrace m u now)])
    (hi2 : w2.incidents = [(i2, inc2)])
    (hP2 : (inc2.status == "pending" &&
      decide (inc2.expiresAt ≤ now)) = false) :
    cronHandler w2 now = w2 := by
  unfold cronHandler
  have hfold : w2.graces.foldl
      (fun acc e => cronGraceStep acc e.1 e.2 now) w2 = w2 := by
    rcases hg2 with h0 | ⟨u, h0⟩
    · rw [h0]
      rfl
    · rw [h0]
      simp only [List.foldl_cons, List.foldl_nil]
      refine cronGraceStep_skip w2 m (freshGrace m u now) now (Or.inr ?_)
      show now < now + 5 * 60 * 1000
      omega
  rw [hfold]
  dsimp only
  rw [hi2]
  simp [hP2]

/-- C8: over a single overdue active grace period and a single incident,
the sweep advances exactly once — a second run in immediate succession is
a complete no-op (the grace slot is gone or replaced by a fresh
not-yet-overdue one, the incident is no longer pending) — a pending
overdue incident fires exactly one buzzer across both runs, and a
non-pending incident triggers no command at all. -/
theorem claim_C8_sweep_idempotent (w : World) (m i : String)
    (gp : GracePeriod) (inc : Incident) (now : Nat)
    (hg : w.graces = [(m, gp)]) (hi : w.incidents = [(i, inc)])
    (hact : gp.status = "active") (hexp : gp.expiresAt ≤ now) :
    cronHandler (cronHandler w now) now = cronHandler w now ∧
    (inc.status = "pending" → inc.expiresAt ≤ now →
      buzzerCount (cronHandler w now).commands =
        buzzerCount w.commands + 1) ∧
    (inc.status ≠ "pending" →
      (cronHandler w now).commands = w.commands) := by
  have hgraces := cronGraceStep_graces_run w m gp now hg hact hexp
  have hgi : (cronGraceStep w m gp now).incidents = [(i, inc)] := by
    rw [cronGraceStep_incidents, hi]
  have hgc : (cronGraceStep w m gp now).commands = w.commands :=
    cronGraceStep_commands w m gp now
  by_cases hP : (inc.status == "pending" &&
      decide (inc.expiresAt ≤ now)) = true
  · have hch : cronHandler w now =
        cronIncidentStep (cronGraceStep w m gp now) i inc now := by
      unfold cronHandler
      rw [hg]
      simp only [List.foldl_cons, List.foldl_nil]
      rw [cronGraceStep_incidents, hi]
      simp [hP]
    refine ⟨?_, ?_, ?_⟩
    · rw [hch]
      refine cron_second_run _ m i (markCronTimeout inc now) now ?_ ?_ ?_
      · rw [cronIncidentStep_graces]
        exact hgraces
      · rw [cronIncidentStep_incidents, hgi]
        simp
      · simp [markCronTimeout]
    · intro _ _
      rw [hch, cronIncidentStep_commands, hgc]
      exact buzzerCount_append_buzzer _ _ _
    · intro hst
      simp [hst] at hP
  · have hP0 : (inc.status == "pending" &&
        decide (inc.expiresAt ≤ now)) = false := by
      simpa using hP
    have hch : cronHandler w now = cronGraceStep w m gp now := by
      unfold cronHandler
      rw [hg]
      simp only [List.foldl_cons, List.foldl_nil]
      rw [cronGraceStep_incidents, hi]
      simp [hP0]
    refine ⟨?_, ?_, ?_⟩
    · rw [hch]
      exact cron_second_run _ m i inc now hgraces hgi hP0
    · intro hpend hover
      have : (inc.status == "pending" &&
          decide (inc.expiresAt ≤ now)) = true := by
        simp [hpend, hover]
      exact absurd this hP
    · intro _
      rw [hch]
      exact hgc

/-- A state with an overdue active grace for M1 (queue {H, X}) and one
pending overdue incident. -/
def wC8 : World :=
  { machines := [("M1", machC1)], users := []
    queues := [("M1", qdC1)]
    graces := [("M1", freshGrace "M1" "H" 0)]
    incidents := [("i1", incPend)], incidentSeq := 0, commands := []
    notifications := [] }

/-- C8 witness: the sweep-idempotence theorem evaluated at time 400000 on
the overdue sample state. -/
theorem claim_C8_witness :
    cronHandler (cronHandler wC8 400000) 400000 = cronHandler wC8 400000 ∧
    (incPend.status = "pending" → incPend.expiresAt ≤ 400000 →
      buzzerCount (cronHandler wC8 400000).commands =
        buzzerCount wC8.commands + 1) ∧
    (incPend.status ≠ "pending" →
      (cronHandler wC8 400000).commands = wC8.commands) :=
  claim_C8_sweep_idempotent wC8 "M1" "i1" (freshGrace "M1" "H" 0) incPend
    400000 (by decide) (by decide) (by decide) (by decide)

/-! ## Claim C9: unauthorized scan with no queue head -/

theorem getNextUser_of_empty (qs : List (String × QueueDocument))
    (m : String) (hq : queueUserIds qs m = []) :
    getNextUser qs m = none := by
  unfold queueUserIds at hq
  unfold getNextUser
  cases hk : kget qs m with
  | none => rfl
  | some qd =>
    simp only [hk] at hq
    have : qd.users = [] := by
      cases hus : qd.users with
      | nil => rfl
      | cons x xs => rw [hus] at hq; simp at hq
    simp [this]

/-- C9: a scan on an occupied machine with an empty queue by a third
party reaches the unauthorized branch, where `createIncident` reads
`.name` on the absent next user (a null dereference): the request dies in
the catch-all with a 500 "Internal server error" and the state — in
particular the incidents collection — is completely unchanged. -/
theorem claim_C9_unauthorized_crash (w : World) (m u : String)
    (machine : Machine) (user : UserData) (now : Nat)
    (hm : m ≠ "") (hu : u ≠ "")
    (hmach : kget w.machines m = some machine)
    (huser : kget w.users u = some user)
    (hocc : ∃ c, strOpt machine.currentUserId = some c ∧ c ≠ u)
    (hq : queueUserIds w.queues m = []) :
    scanHandler w m u now = (errResp 500 "Internal server error", w) ∧
    (scanHandler w m u now).2.incidents = w.incidents := by
  obtain ⟨c, hc, hcu⟩ := hocc
  have hnu : getNextUser w.queues m = none := getNextUser_of_empty _ _ hq
  have hmain : scanHandler w m u now =
      (errResp 500 "Internal server error", w) := by
    unfold scanHandler getMachine getUser
    rw [hmach, huser]
    simp [hm, hu, hc, hcu, hnu, createIncident]
  exact ⟨hmain, by rw [hmain]⟩

/-- A state where machine M1 is occupied by C, the queue is empty, and a
third user Z scans. -/
def wC9 : World :=
  { machines := [("M1", ⟨some "C", none, "In Use", 0⟩)]
    users := [("Z", ⟨some "Zed", none, none, none⟩),
              ("C", ⟨some "Cee", none, none, none⟩)]
    queues := [("M1", ⟨"M1", "Active", 0, []⟩)]
    graces := [], incidents := [], incidentSeq := 0, commands := []
    notifications := [] }

/-- C9 witness: the crash theorem evaluated at the occupied-machine,
empty-queue sample state. -/
theorem claim_C9_witness :
    scanHandler wC9 "M1" "Z" 1000 =
      (errResp 500 "Internal server error", wC9) ∧
    (scanHandler wC9 "M1" "Z" 1000).2.incidents = wC9.incidents :=
  claim_C9_unauthorized_crash wC9 "M1" "Z" ⟨some "C", none, "In Use", 0⟩
    ⟨some "Zed", none, none, none⟩ 1000 (by decide) (by decide)
    (by decide) (by decide) ⟨"C", by decide, by decide⟩ (by decide)

/-! ## Claim C10: the expired grace timeout never checks the clock -/

theorem mem_insertByPos (u x : QueueUser) (l : List QueueUser)
    (h : x ∈ insertByPos u l) : x = u ∨ x ∈ l := by
  induction l with
  | nil =>
    simp [insertByPos] at h
    exact Or.inl h
  | cons v vs ih =>
    unfold insertByPos at h
    by_cases hp : u.position < v.position
    · rw [if_pos hp] at h
      simpa using h
    · rw [if_neg hp] at h
      rcases List.mem_cons.mp h with h1 | h1
      · simp [h1]
      · rcases ih h1 with h2 | h2
        · exact Or.inl h2
        · simp [h2]

theorem mem_sortByPosition (x : QueueUser) (l : List QueueUser)
    (h : x ∈ sortByPosition l) : x ∈ l := by
  induction l with
  | nil => simp [sortByPosition] at h
  | cons v vs ih =>
    unfold sortByPosition at h
    rcases mem_insertByPos v x _ h with h1 | h1
    · simp [h1]
    · simp [ih h1]

theorem getNextUser_mem (qs : List (String × QueueDocument)) (m : String)
    (nu : QueueUser) (h : getNextUser qs m = some nu) :
    ∃ qd, kget qs m = some qd ∧ nu ∈ qd.users := by
  unfold getNextUser at h
  cases hk : kget qs m with
  | none => rw [hk] at h; simp at h
  | some qd =>
    simp only [hk] at h
    by_cases he : qd.users.isEmpty
    · rw [if_pos he] at h
      simp at h
    · rw [if_neg he] at h
      refine ⟨qd, rfl, ?_⟩
      exact mem_sortByPosition nu _ (List.mem_of_mem_head? h)

theorem notMem_queueUserIds_remove
    (qs : List (String × QueueDocument)) (m u : String) (now : Nat) :
    u ∉ queueUserIds (removeUserFromQueue qs m u now).1 m := by
  cases hq : kget qs m with
  | none =>
    have h1 : (removeUserFromQueue qs m u now).1 = qs := by
      simp [removeUserFromQueue, hq]
    rw [h1]
    simp [queueUserIds, hq]
  | some qd =>
    by_cases hall : qd.users.all (fun x => x.userId != u)
    · have h1 : (removeUserFromQueue qs m u now).1 = qs := by
        simp [removeUserFromQueue, hq, hall]
      rw [h1]
      unfold queueUserIds
      rw [hq]
      intro hmem
      obtain ⟨entry, he, hid⟩ := List.mem_map.mp hmem
      have := List.all_eq_true.mp hall entry he
      simp [hid] at this
    · have h1 : (removeUserFromQueue qs m u now).1 =
          kset qs m { qd with
            users := reindexFrom 1 (qd.users.filter (fun x => x.userId != u))
            lastUpdated := now } := by
        simp [removeUserFromQueue, hq, hall]
      rw [h1]
      unfold queueUserIds
      rw [kget_kset_self]
      intro hmem
      dsimp only at hmem
      rw [reindexFrom_map_userId, filter_map_userId] at hmem
      have := List.of_mem_filter hmem
      simp at this

theorem handleExpired_queues (w : World) (m u : String)
    (gp : GracePeriod) (now : Nat) :
    (handleExpired w m u gp now).1.queues =
      (removeUserFromQueue w.queues m u now).1 := by
  unfold handleExpired
  dsimp only
  split <;> simp

theorem handleExpired_graces (w : World) (m u : String)
    (gp : GracePeriod) (now : Nat) :
    (handleExpired w m u gp now).1.graces =
      kdel (kset w.graces m (markExpired gp now)) m ∨
    ∃ nu, getNextUser (removeUserFromQueue w.queues m u now).1 m =
        some nu ∧
      (handleExpired w m u gp now).1.graces =
        kset (kset w.graces m (markExpired gp now)) m
          (freshGrace m nu.userId now) := by
  unfold handleExpired
  dsimp only
  split
  · rename_i nu hnu
    right
    refine ⟨nu, ?_, by simp⟩
    simpa using hnu
  · left
    simp

/-- C10: the grace-timeout endpoint's `expired` branch never consults
`expiresAt` — for any active grace period whose grantee matches, the
request succeeds at every `now` (arbitrarily far before the deadline),
the grantee is evicted from the queue, and the machine's grace slot no
longer holds an active record for that grantee. -/
theorem claim_C10_expired_ignores_clock (w : World) (m u : String)
    (gp : GracePeriod) (now : Nat)
    (hm : m ≠ "") (hu : u ≠ "")
    (hgp : kget w.graces m = some gp)
    (huid : gp.userId = u) (hact : gp.status = "active") :
    (graceTimeoutHandler w m u "expired" now).1.status = 200 ∧
    (graceTimeoutHandler w m u "expired" now).1.message =
      some "User removed from queue." ∧
    u ∉ queueUserIds (graceTimeoutHandler w m u "expired" now).2.queues
      m ∧
    (∀ g, kget (graceTimeoutHandler w m u "expired" now).2.graces m =
        some g → ¬ (g.userId = u ∧ g.status = "active")) := by
  have heval := graceTimeoutHandler_expired_eq w m u gp now hm hu hgp huid
    hact
  refine ⟨by rw [heval]; rfl, by rw [heval], ?_, ?_⟩
  · rw [heval]
    show u ∉ queueUserIds (handleExpired w m u gp now).1.queues m
    rw [handleExpired_queues]
    exact notMem_queueUserIds_remove w.queues m u now
  · intro g hgget
    rw [heval] at hgget
    show ¬ (g.userId = u ∧ g.status = "active")
    rcases handleExpired_graces w m u gp now with hdel | ⟨nu, hnu, hset⟩
    · rw [hdel, kget_kdel_self] at hgget
      exact absurd hgget (by simp)
    · rw [hset, kget_kset_self] at hgget
      have hg : g = freshGrace m nu.userId now := by
        injection hgget with hinj
        exact hinj.symm
      rintro ⟨hgu, _⟩
      rw [hg] at hgu
      have hnuid : nu.userId = u := hgu
      obtain ⟨qd, hqd, hmem⟩ := getNextUser_mem _ _ _ hnu
      have : u ∈ queueUserIds (removeUserFromQueue w.queues m u now).1
          m := by
        unfold queueUserIds
        rw [hqd]
        exact List.mem_map.mpr ⟨nu, hmem, hnuid⟩
      exact notMem_queueUserIds_remove w.queues m u now this

/-- C10 witness: the clock-free expiry theorem evaluated at `now = 10`,
five minutes minus ten milliseconds before the stored `expiresAt`. -/
theorem claim_C10_witness :
    (graceTimeoutHandler wC4 "M1" "A" "expired" 10).1.status = 200 ∧
    (graceTimeoutHandler wC4 "M1" "A" "expired" 10).1.message =
      some "User removed from queue." ∧
    "A" ∉ queueUserIds
      (graceTimeoutHandler wC4 "M1" "A" "expired" 10).2.queues "M1" ∧
    (∀ g, kget (graceTimeoutHandler wC4 "M1" "A" "expired"
        10).2.graces "M1" = some g →
      ¬ (g.userId = "A" ∧ g.status = "active")) :=
  claim_C10_expired_ignores_clock wC4 "M1" "A" (freshGrace "M1" "A" 0) 10
    (by decide) (by decide) (by decide) (by decide) (by decide)
